import Mathlib

/-!
Shallow embedding of `Source/Engine/Physics/RigidBody.cpp` (Urho3D physics
rigid-body component).  Scalars are modelled as exact rationals; the Bullet
body, the owning scene node and the physics world are modelled as explicit
record states.  Calls into the underlying solver (wake-ups, force/impulse
applications, world insertion/removal) are recorded in an event trace so
that ordering and no-op properties can be stated.
-/

namespace UrhoRigidBody

/-- Three-component vector over exact rationals (models `Urho3D::Vector3`). -/
structure Vec3 where
  x : ℚ
  y : ℚ
  z : ℚ
deriving DecidableEq, Repr

namespace Vec3

/-- The zero vector (`Vector3::ZERO`). -/
def zero : Vec3 := ⟨0, 0, 0⟩

instance : Zero Vec3 := ⟨zero⟩

/-- Componentwise addition. -/
def add (a b : Vec3) : Vec3 := ⟨a.x + b.x, a.y + b.y, a.z + b.z⟩

instance : Add Vec3 := ⟨add⟩

/-- Componentwise subtraction. -/
def sub (a b : Vec3) : Vec3 := ⟨a.x - b.x, a.y - b.y, a.z - b.z⟩

instance : Sub Vec3 := ⟨sub⟩

/-- Scalar multiplication. -/
def smul (c : ℚ) (v : Vec3) : Vec3 := ⟨c * v.x, c * v.y, c * v.z⟩

/-- Cross product (`Vector3::CrossProduct`). -/
def cross (a b : Vec3) : Vec3 :=
  ⟨a.y * b.z - a.z * b.y, a.z * b.x - a.x * b.z, a.x * b.y - a.y * b.x⟩

end Vec3

/-- Quaternion over exact rationals (models `Urho3D::Quaternion`). -/
structure Quat where
  w : ℚ
  x : ℚ
  y : ℚ
  z : ℚ
deriving DecidableEq, Repr

namespace Quat

/-- The identity quaternion (`Quaternion::IDENTITY`). -/
def identity : Quat := ⟨1, 0, 0, 0⟩

/-- Rotation of a vector by a quaternion, following Urho3D's
`Quaternion::operator*(Vector3)`:
`rhs + 2 * (cross1 * w + cross2)` with `cross1 = qVec × rhs`,
`cross2 = qVec × cross1`. -/
def rotv (q : Quat) (v : Vec3) : Vec3 :=
  let qVec : Vec3 := ⟨q.x, q.y, q.z⟩
  let cross1 := Vec3.cross qVec v
  let cross2 := Vec3.cross qVec cross1
  v + (Vec3.smul (2 * q.w) cross1 + Vec3.smul 2 cross2)

end Quat

/-- A rigid transform as stored by Bullet's `btTransform`: an origin and a
rotation. -/
structure BtTransform where
  origin : Vec3
  rotation : Quat
deriving DecidableEq, Repr

/-- The identity transform. -/
def BtTransform.identity : BtTransform := ⟨0, Quat.identity⟩

/-- Identity of an externally-owned child collision shape: an opaque id plus
its Bullet shape-type tag (used only for the triangle-mesh test). -/
structure ChildShape where
  id : ℕ
  shapeType : ℕ
deriving DecidableEq, Repr

/-- Bullet's `SCALED_TRIANGLE_MESH_SHAPE_PROXYTYPE` tag; only its identity
matters for the model. -/
def SCALED_TRIANGLE_MESH_SHAPE_PROXYTYPE : ℕ := 22

/-- One child of a `btCompoundShape`: the child's local transform and the
child shape reference. -/
structure CompoundChild where
  transform : BtTransform
  shape : ChildShape
deriving DecidableEq, Repr

/-- Which collision shape the simulated body currently exposes: the shifted
compound wrapper, or a single child shape directly. -/
inductive ShapeRef where
  | compound : ShapeRef
  | child (c : ChildShape) : ShapeRef
deriving DecidableEq, Repr

/-- State of the underlying `btRigidBody`, restricted to what the component
reads and writes. -/
structure BtBody where
  worldTransform : BtTransform
  interpTransform : BtTransform
  linearVelocity : Vec3
  angularVelocity : Vec3
  gravity : Vec3
  disableWorldGravity : Bool
  activated : Bool
  collisionShape : ShapeRef
  massVal : ℚ
  localInertia : Vec3
  linearFactor : Vec3
  angularFactor : Vec3
  linearDamping : ℚ
  angularDamping : ℚ
  linearSleepThreshold : ℚ
  angularSleepThreshold : ℚ
  friction : ℚ
  rollingFriction : ℚ
  restitution : ℚ
  contactProcessingThreshold : ℚ
  ccdRadius : ℚ
  ccdMotionThreshold : ℚ
  noContactResponse : Bool
  kinematicFlag : Bool
  customMaterial : Bool
deriving DecidableEq, Repr

/-- State of the owning scene node, restricted to its world transform and
whether its parent (other than the scene root) carries a `RigidBody`. -/
structure NodeState where
  worldPosition : Vec3
  worldRotation : Quat
  parentRigidBody : Bool
deriving DecidableEq, Repr

/-- A queued delayed world-transform assignment
(`PhysicsWorld::AddDelayedWorldTransform` entry). -/
structure DelayedWorldTransform where
  worldPosition : Vec3
  worldRotation : Quat
deriving DecidableEq, Repr

/-- State of the `PhysicsWorld` collaborator visible to the component. -/
structure PhysicsWorldState where
  gravity : Vec3
  internalEdge : Bool
  applyingTransforms : Bool
  delayed : List DelayedWorldTransform
deriving DecidableEq, Repr

/-- Solver/world calls recorded by the model. -/
inductive PhysEvent where
  | activate : PhysEvent
  | applyCentralForce (f : Vec3) : PhysEvent
  | applyForceAt (f p : Vec3) : PhysEvent
  | applyTorque (t : Vec3) : PhysEvent
  | applyCentralImpulse (i : Vec3) : PhysEvent
  | applyImpulseAt (i p : Vec3) : PhysEvent
  | applyTorqueImpulse (t : Vec3) : PhysEvent
  | clearForces : PhysEvent
  | setLinearVelocity (v : Vec3) : PhysEvent
  | setAngularVelocity (v : Vec3) : PhysEvent
  | removeFromWorld : PhysEvent
  | addToWorld (layer mask : ℕ) : PhysEvent
deriving DecidableEq, Repr

/-- Collision event modes (`CollisionEventMode`). -/
inductive CollisionEventMode where
  | never
  | whenActive
  | always
deriving DecidableEq, Repr

/-- Full model state of one `RigidBody` component together with the parts of
its collaborators it touches. -/
structure RigidBodyState where
  body : Option BtBody
  node : Option NodeState
  physicsWorld : Option PhysicsWorldState
  mass : ℚ
  centerOfMass : Vec3
  compoundShape : List CompoundChild
  shiftedCompoundShape : List CompoundChild
  gravityOverride : Vec3
  useGravity : Bool
  collisionLayer : ℕ
  collisionMask : ℕ
  collisionEventMode : CollisionEventMode
  kinematic : Bool
  phantom : Bool
  hasSmoothedTransform : Bool
  smoothedAvailable : Bool
  smoothTargetPosition : Vec3
  smoothTargetRotation : Quat
  inWorld : Bool
  readdBody : Bool
  enabled : Bool
  lastPosition : Vec3
  lastRotation : Quat
  constraints : List ℕ
  worldEntry : Option (ℕ × ℕ)
deriving DecidableEq, Repr

/-- `RigidBody::Activate` (RigidBody.cpp:558-562): wake the body, but only
when a body exists and the stored mass is positive. -/
def activate (s : RigidBodyState) : RigidBodyState × List PhysEvent :=
  match s.body with
  | some b =>
    if 0 < s.mass then ({ s with body := some { b with activated := true } }, [.activate])
    else (s, [])
  | none => (s, [])

/-- `RigidBody::GetPosition` (RigidBody.cpp:570-579). -/
def getPosition (s : RigidBodyState) : Vec3 :=
  match s.body with
  | some b => b.worldTransform.origin - Quat.rotv b.worldTransform.rotation s.centerOfMass
  | none => 0

/-- `RigidBody::GetRotation` (RigidBody.cpp:581-584). -/
def getRotation (s : RigidBodyState) : Quat :=
  match s.body with
  | some b => b.worldTransform.rotation
  | none => Quat.identity

/-- `RigidBody::GetLinearVelocity` (RigidBody.cpp:586-589). -/
def getLinearVelocity (s : RigidBodyState) : Vec3 :=
  match s.body with
  | some b => b.linearVelocity
  | none => 0

/-- `RigidBody::GetLinearFactor` (RigidBody.cpp:591-594). -/
def getLinearFactor (s : RigidBodyState) : Vec3 :=
  match s.body with
  | some b => b.linearFactor
  | none => 0

/-- `btRigidBody::getVelocityInLocalPoint` (external Bullet code):
`linearVelocity + angularVelocity × relPos`. -/
def getVelocityInLocalPoint (b : BtBody) (relPos : Vec3) : Vec3 :=
  b.linearVelocity + Vec3.cross b.angularVelocity relPos

/-- `RigidBody::GetVelocityAtPoint` (RigidBody.cpp:596-599). -/
def getVelocityAtPoint (s : RigidBodyState) (position : Vec3) : Vec3 :=
  match s.body with
  | some b => getVelocityInLocalPoint b (position - s.centerOfMass)
  | none => 0

/-- `RigidBody::GetLinearRestThreshold` (RigidBody.cpp:601-604). -/
def getLinearRestThreshold (s : RigidBodyState) : ℚ :=
  match s.body with
  | some b => b.linearSleepThreshold
  | none => 0

/-- `RigidBody::GetLinearDamping` (RigidBody.cpp:606-609). -/
def getLinearDamping (s : RigidBodyState) : ℚ :=
  match s.body with
  | some b => b.linearDamping
  | none => 0

/-- `RigidBody::GetAngularVelocity` (RigidBody.cpp:611-614). -/
def getAngularVelocity (s : RigidBodyState) : Vec3 :=
  match s.body with
  | some b => b.angularVelocity
  | none => 0

/-- `RigidBody::GetAngularFactor` (RigidBody.cpp:616-619). -/
def getAngularFactor (s : RigidBodyState) : Vec3 :=
  match s.body with
  | some b => b.angularFactor
  | none => 0

/-- `RigidBody::GetAngularRestThreshold` (RigidBody.cpp:621-624). -/
def getAngularRestThreshold (s : RigidBodyState) : ℚ :=
  match s.body with
  | some b => b.angularSleepThreshold
  | none => 0

/-- `RigidBody::GetAngularDamping` (RigidBody.cpp:626-629). -/
def getAngularDamping (s : RigidBodyState) : ℚ :=
  match s.body with
  | some b => b.angularDamping
  | none => 0

/-- `RigidBody::GetFriction` (RigidBody.cpp:631-634). -/
def getFriction (s : RigidBodyState) : ℚ :=
  match s.body with
  | some b => b.friction
  | none => 0

/-- `RigidBody::GetRollingFriction` (RigidBody.cpp:636-639). -/
def getRollingFriction (s : RigidBodyState) : ℚ :=
  match s.body with
  | some b => b.rollingFriction
  | none => 0

/-- `RigidBody::GetRestitution` (RigidBody.cpp:641-644). -/
def getRestitution (s : RigidBodyState) : ℚ :=
  match s.body with
  | some b => b.restitution
  | none => 0

/-- `RigidBody::GetContactProcessingThreshold` (RigidBody.cpp:646-649). -/
def getContactProcessingThreshold (s : RigidBodyState) : ℚ :=
  match s.body with
  | some b => b.contactProcessingThreshold
  | none => 0

/-- `RigidBody::GetCcdRadius` (RigidBody.cpp:651-654). -/
def getCcdRadius (s : RigidBodyState) : ℚ :=
  match s.body with
  | some b => b.ccdRadius
  | none => 0

/-- `RigidBody::GetCcdMotionThreshold` (RigidBody.cpp:656-659). -/
def getCcdMotionThreshold (s : RigidBodyState) : ℚ :=
  match s.body with
  | some b => b.ccdMotionThreshold
  | none => 0

/-- `RigidBody::IsActive` (RigidBody.cpp:661-664). -/
def isActive (s : RigidBodyState) : Bool :=
  match s.body with
  | some b => b.activated
  | none => false

/-- `RigidBody::SetPosition` (RigidBody.cpp:229-245).  The body's origin is
set to `position + rotation * centerOfMass`; the interpolation transform gets
the same origin; then `Activate()` runs.  (`updateInertiaTensor` only
refreshes a Bullet-internal cache and has no modelled observable effect.) -/
def setPosition (s : RigidBodyState) (position : Vec3) : RigidBodyState × List PhysEvent :=
  match s.body with
  | none => (s, [])
  | some b =>
    let newOrigin := position + Quat.rotv b.worldTransform.rotation s.centerOfMass
    let b := { b with
      worldTransform := { b.worldTransform with origin := newOrigin },
      interpTransform := { b.interpTransform with origin := newOrigin } }
    activate { s with body := some b }

/-- `RigidBody::SetRotation` (RigidBody.cpp:247-268).  `Vector3::Equals`
lives in the Math library outside this file; per the spec's description of
the comparisons it is modelled as exact equality. -/
def setRotation (s : RigidBodyState) (rotation : Quat) : RigidBodyState × List PhysEvent :=
  match s.body with
  | none => (s, [])
  | some b =>
    let oldPosition := b.worldTransform.origin - Quat.rotv b.worldTransform.rotation s.centerOfMass
    let wt := { b.worldTransform with rotation := rotation }
    let wt := if s.centerOfMass = Vec3.zero then wt
      else { wt with origin := oldPosition + Quat.rotv rotation s.centerOfMass }
    let it := { b.interpTransform with rotation := wt.rotation }
    let it := if s.centerOfMass = Vec3.zero then it else { it with origin := wt.origin }
    activate { s with body := some { b with worldTransform := wt, interpTransform := it } }

/-- `RigidBody::SetTransform` (RigidBody.cpp:270-287). -/
def setTransform (s : RigidBodyState) (position : Vec3) (rotation : Quat) :
    RigidBodyState × List PhysEvent :=
  match s.body with
  | none => (s, [])
  | some b =>
    let wt : BtTransform := ⟨position + Quat.rotv rotation s.centerOfMass, rotation⟩
    activate { s with body := some { b with worldTransform := wt, interpTransform := wt } }

/-- `RigidBody::SetLinearVelocity` (RigidBody.cpp:289-298): stores the
velocity, then wakes the body only when the new velocity is nonzero. -/
def setLinearVelocity (s : RigidBodyState) (velocity : Vec3) : RigidBodyState × List PhysEvent :=
  match s.body with
  | none => (s, [])
  | some b =>
    let s1 := { s with body := some { b with linearVelocity := velocity } }
    if velocity = Vec3.zero then (s1, [.setLinearVelocity velocity])
    else
      let (s2, t) := activate s1
      (s2, .setLinearVelocity velocity :: t)

/-- `RigidBody::SetLinearFactor` (RigidBody.cpp:300-307). -/
def setLinearFactor (s : RigidBodyState) (factor : Vec3) : RigidBodyState × List PhysEvent :=
  match s.body with
  | none => (s, [])
  | some b => ({ s with body := some { b with linearFactor := factor } }, [])

/-- `RigidBody::SetLinearRestThreshold` (RigidBody.cpp:309-316). -/
def setLinearRestThreshold (s : RigidBodyState) (threshold : ℚ) :
    RigidBodyState × List PhysEvent :=
  match s.body with
  | none => (s, [])
  | some b => ({ s with body := some { b with linearSleepThreshold := threshold } }, [])

/-- `RigidBody::SetLinearDamping` (RigidBody.cpp:318-325). -/
def setLinearDamping (s : RigidBodyState) (damping : ℚ) : RigidBodyState × List PhysEvent :=
  match s.body with
  | none => (s, [])
  | some b => ({ s with body := some { b with linearDamping := damping } }, [])

/-- `RigidBody::SetAngularVelocity` (RigidBody.cpp:327-336). -/
def setAngularVelocity (s : RigidBodyState) (velocity : Vec3) : RigidBodyState × List PhysEvent :=
  match s.body with
  | none => (s, [])
  | some b =>
    let s1 := { s with body := some { b with angularVelocity := velocity } }
    if velocity = Vec3.zero then (s1, [.setAngularVelocity velocity])
    else
      let (s2, t) := activate s1
      (s2, .setAngularVelocity velocity :: t)

/-- `RigidBody::SetAngularFactor` (RigidBody.cpp:338-345). -/
def setAngularFactor (s : RigidBodyState) (factor : Vec3) : RigidBodyState × List PhysEvent :=
  match s.body with
  | none => (s, [])
  | some b => ({ s with body := some { b with angularFactor := factor } }, [])

/-- `RigidBody::SetAngularRestThreshold` (RigidBody.cpp:347-354). -/
def setAngularRestThreshold (s : RigidBodyState) (threshold : ℚ) :
    RigidBodyState × List PhysEvent :=
  match s.body with
  | none => (s, [])
  | some b => ({ s with body := some { b with angularSleepThreshold := threshold } }, [])

/-- `RigidBody::SetAngularDamping` (RigidBody.cpp:356-363). -/
def setAngularDamping (s : RigidBodyState) (damping : ℚ) : RigidBodyState × List PhysEvent :=
  match s.body with
  | none => (s, [])
  | some b => ({ s with body := some { b with angularDamping := damping } }, [])

/-- `RigidBody::SetFriction` (RigidBody.cpp:365-372). -/
def setFriction (s : RigidBodyState) (friction : ℚ) : RigidBodyState × List PhysEvent :=
  match s.body with
  | none => (s, [])
  | some b => ({ s with body := some { b with friction := friction } }, [])

/-- `RigidBody::SetRollingFriction` (RigidBody.cpp:374-381). -/
def setRollingFriction (s : RigidBodyState) (friction : ℚ) : RigidBodyState × List PhysEvent :=
  match s.body with
  | none => (s, [])
  | some b => ({ s with body := some { b with rollingFriction := friction } }, [])

/-- `RigidBody::SetRestitution` (RigidBody.cpp:383-390). -/
def setRestitution (s : RigidBodyState) (restitution : ℚ) : RigidBodyState × List PhysEvent :=
  match s.body with
  | none => (s, [])
  | some b => ({ s with body := some { b with restitution := restitution } }, [])

/-- `RigidBody::SetContactProcessingThreshold` (RigidBody.cpp:392-399). -/
def setContactProcessingThreshold (s : RigidBodyState) (threshold : ℚ) :
    RigidBodyState × List PhysEvent :=
  match s.body with
  | none => (s, [])
  | some b => ({ s with body := some { b with contactProcessingThreshold := threshold } }, [])

/-- `RigidBody::SetCcdRadius` (RigidBody.cpp:401-409): clamps a negative
radius to zero, then applies it to the body if one exists. -/
def setCcdRadius (s : RigidBodyState) (radius : ℚ) : RigidBodyState × List PhysEvent :=
  let radius := max radius 0
  match s.body with
  | none => (s, [])
  | some b => ({ s with body := some { b with ccdRadius := radius } }, [])

/-- `RigidBody::SetCcdMotionThreshold` (RigidBody.cpp:411-419). -/
def setCcdMotionThreshold (s : RigidBodyState) (threshold : ℚ) :
    RigidBodyState × List PhysEvent :=
  let threshold := max threshold 0
  match s.body with
  | none => (s, [])
  | some b => ({ s with body := some { b with ccdMotionThreshold := threshold } }, [])

/-- `RigidBody::UpdateGravity` (RigidBody.cpp:774-798). -/
def updateGravity (s : RigidBodyState) : RigidBodyState × List PhysEvent :=
  match s.physicsWorld, s.body with
  | some w, some b =>
    let disable : Bool := ! (s.useGravity && decide (s.gravityOverride = Vec3.zero))
    let gravity :=
      if s.useGravity then
        if s.gravityOverride = Vec3.zero then w.gravity else s.gravityOverride
      else Vec3.zero
    ({ s with body := some { b with disableWorldGravity := disable, gravity := gravity } }, [])
  | _, _ => (s, [])

/-- `RigidBody::SetUseGravity` (RigidBody.cpp:421-429). -/
def setUseGravity (s : RigidBodyState) (enable : Bool) : RigidBodyState × List PhysEvent :=
  if enable = s.useGravity then (s, [])
  else updateGravity { s with useGravity := enable }

/-- `RigidBody::SetGravityOverride` (RigidBody.cpp:431-439). -/
def setGravityOverride (s : RigidBodyState) (gravity : Vec3) : RigidBodyState × List PhysEvent :=
  if gravity = s.gravityOverride then (s, [])
  else updateGravity { s with gravityOverride := gravity }

/-- `RigidBody::ApplyForce` (RigidBody.cpp:498-505). -/
def applyForce (s : RigidBodyState) (force : Vec3) : RigidBodyState × List PhysEvent :=
  match s.body with
  | none => (s, [])
  | some _ =>
    if force = Vec3.zero then (s, [])
    else
      let (s1, t) := activate s
      (s1, t ++ [.applyCentralForce force])

/-- `RigidBody::ApplyForce` at a position (RigidBody.cpp:507-514); the
position handed to the solver is relative to the center of mass. -/
def applyForceAt (s : RigidBodyState) (force position : Vec3) :
    RigidBodyState × List PhysEvent :=
  match s.body with
  | none => (s, [])
  | some _ =>
    if force = Vec3.zero then (s, [])
    else
      let (s1, t) := activate s
      (s1, t ++ [.applyForceAt force (position - s.centerOfMass)])

/-- `RigidBody::ApplyTorque` (RigidBody.cpp:516-523). -/
def applyTorque (s : RigidBodyState) (torque : Vec3) : RigidBodyState × List PhysEvent :=
  match s.body with
  | none => (s, [])
  | some _ =>
    if torque = Vec3.zero then (s, [])
    else
      let (s1, t) := activate s
      (s1, t ++ [.applyTorque torque])

/-- `RigidBody::ApplyImpulse` (RigidBody.cpp:525-532). -/
def applyImpulse (s : RigidBodyState) (impulse : Vec3) : RigidBodyState × List PhysEvent :=
  match s.body with
  | none => (s, [])
  | some _ =>
    if impulse = Vec3.zero then (s, [])
    else
      let (s1, t) := activate s
      (s1, t ++ [.applyCentralImpulse impulse])

/-- `RigidBody::ApplyImpulse` at a position (RigidBody.cpp:534-541). -/
def applyImpulseAt (s : RigidBodyState) (impulse position : Vec3) :
    RigidBodyState × List PhysEvent :=
  match s.body with
  | none => (s, [])
  | some _ =>
    if impulse = Vec3.zero then (s, [])
    else
      let (s1, t) := activate s
      (s1, t ++ [.applyImpulseAt impulse (position - s.centerOfMass)])

/-- `RigidBody::ApplyTorqueImpulse` (RigidBody.cpp:543-550). -/
def applyTorqueImpulse (s : RigidBodyState) (torque : Vec3) :
    RigidBodyState × List PhysEvent :=
  match s.body with
  | none => (s, [])
  | some _ =>
    if torque = Vec3.zero then (s, [])
    else
      let (s1, t) := activate s
      (s1, t ++ [.applyTorqueImpulse torque])

/-- `RigidBody::ResetForces` (RigidBody.cpp:552-556). -/
def resetForces (s : RigidBodyState) : RigidBodyState × List PhysEvent :=
  match s.body with
  | none => (s, [])
  | some _ => (s, [.clearForces])

/-- `RigidBody::AddConstraint` (RigidBody.cpp:815-818). -/
def addConstraint (s : RigidBodyState) (constraint : ℕ) : RigidBodyState × List PhysEvent :=
  ({ s with constraints := s.constraints ++ [constraint] }, [])

/-- `RigidBody::RemoveConstraint` (RigidBody.cpp:820-825): removes the
constraint from the list, then calls `Activate()`. -/
def removeConstraint (s : RigidBodyState) (constraint : ℕ) : RigidBodyState × List PhysEvent :=
  activate { s with constraints := s.constraints.erase constraint }

/-- `RigidBody::getWorldTransform` (RigidBody.cpp:157-168): skipped when the
node has been destroyed; otherwise refreshes the last-known caches and hands
`(nodePosition + nodeRotation * centerOfMass, nodeRotation)` to the solver. -/
def getWorldTransform (s : RigidBodyState) : RigidBodyState × Option BtTransform :=
  match s.node with
  | some n =>
    ({ s with lastPosition := n.worldPosition, lastRotation := n.worldRotation },
     some ⟨n.worldPosition + Quat.rotv n.worldRotation s.centerOfMass, n.worldRotation⟩)
  | none => (s, none)

/-- `RigidBody::ApplyWorldTransform` (RigidBody.cpp:674-699).  The
`SetApplyingTransforms(true)`/`(false)` bracket leaves the world flag where
it started, so only its net effect is modelled. -/
def applyWorldTransform (s : RigidBodyState) (newWorldPosition : Vec3)
    (newWorldRotation : Quat) : RigidBodyState :=
  if s.hasSmoothedTransform && s.smoothedAvailable then
    { s with smoothTargetPosition := newWorldPosition, smoothTargetRotation := newWorldRotation,
             lastPosition := newWorldPosition, lastRotation := newWorldRotation }
  else
    match s.node with
    | some n =>
      { s with
        node := some { n with worldPosition := newWorldPosition,
                              worldRotation := newWorldRotation },
        lastPosition := newWorldPosition, lastRotation := newWorldRotation }
    | none => s

/-- `RigidBody::setWorldTransform` (RigidBody.cpp:170-200): converts the
simulated transform to node space; when a non-root parent carries a rigid
body the assignment is queued in the physics world, otherwise it is applied
directly. -/
def setWorldTransform (s : RigidBodyState) (worldTrans : BtTransform) :
    RigidBodyState × List PhysEvent :=
  let newWorldRotation := worldTrans.rotation
  let newWorldPosition := worldTrans.origin - Quat.rotv newWorldRotation s.centerOfMass
  match s.node with
  | some n =>
    if n.parentRigidBody then
      ({ s with physicsWorld := s.physicsWorld.map fun w =>
          { w with delayed := w.delayed ++ [⟨newWorldPosition, newWorldRotation⟩] } }, [])
    else
      (applyWorldTransform s newWorldPosition newWorldRotation, [])
  | none => (s, [])

/-- Translation component of `btCompoundShape::calculatePrincipalAxisTransform`
with equal child masses (external Bullet code): the equal-weight centroid of
the child transform origins, as described by the spec. -/
def centroid (shapes : List CompoundChild) : Vec3 :=
  Vec3.smul (1 / (shapes.length : ℚ)) (shapes.foldl (fun acc c => acc + c.transform.origin) 0)

/-- Stand-in for `btCollisionShape::calculateLocalInertia` (external Bullet
code, treated as a black box; no claim depends on its value). -/
def calcLocalInertia (mass : ℚ) (shapes : List CompoundChild) : Vec3 :=
  Vec3.smul mass ⟨(shapes.length : ℚ), 1, 1⟩

/-- Principal-axis translation as computed in `UpdateMass`
(RigidBody.cpp:705-722): the zero vector for an empty shape set, otherwise
the equal-weight centroid. -/
def principalOf (shapes : List CompoundChild) : Vec3 :=
  if shapes.length = 0 then 0 else centroid shapes

/-- Children of the source compound shape with the given offset subtracted
from every child translation (RigidBody.cpp:724-732). -/
def shiftChildren (shapes : List CompoundChild) (offset : Vec3) : List CompoundChild :=
  shapes.map fun c =>
    { c with transform := { c.transform with origin := c.transform.origin - offset } }

/-- `RigidBody::UpdateMass` (RigidBody.cpp:701-772). -/
def updateMass (s : RigidBodyState) : RigidBodyState × List PhysEvent :=
  match s.body with
  | none => (s, [])
  | some b =>
    let numShapes := s.compoundShape.length
    let principalOrigin := principalOf s.compoundShape
    let shifted := shiftChildren s.compoundShape principalOrigin
    let useCompound : Bool :=
      if numShapes = 1 then
        match shifted.head? with
        | some c => ! (decide (c.transform.origin = Vec3.zero) &&
                       decide (c.transform.rotation = Quat.identity))
        | none => true
      else true
    let exposed : ShapeRef :=
      if useCompound then .compound
      else
        match shifted.head? with
        | some c => .child c.shape
        | none => .compound
    let exposedType : ℕ :=
      match exposed with
      | .child c => c.shapeType
      | .compound => 0
    let custom : Bool := !useCompound &&
      decide (exposedType = SCALED_TRIANGLE_MESH_SHAPE_PROXYTYPE) &&
      (match s.physicsWorld with | some w => w.internalEdge | none => false)
    let b1 := { b with collisionShape := exposed, customMaterial := custom }
    let oldPosition := b1.worldTransform.origin -
      Quat.rotv b1.worldTransform.rotation s.centerOfMass
    let s1 := { s with body := some b1, shiftedCompoundShape := shifted,
                       centerOfMass := principalOrigin }
    let (s2, tr) := setPosition s1 oldPosition
    let localInertia := if 0 < s2.mass then calcLocalInertia s2.mass shifted else 0
    match s2.body with
    | some b2 => ({ s2 with body := some { b2 with massVal := s2.mass,
                                                   localInertia := localInertia } }, tr)
    | none => (s2, tr)

/-- `RigidBody::RemoveBodyFromWorld` (RigidBody.cpp:976-984). -/
def removeBodyFromWorld (s : RigidBodyState) : RigidBodyState × List PhysEvent :=
  if s.physicsWorld.isSome && s.body.isSome && s.inWorld then
    ({ s with inWorld := false, worldEntry := none }, [.removeFromWorld])
  else (s, [])

/-- Fresh `btRigidBody` state as produced by its constructor with the given
mass and motion-state start transform (Bullet defaults elsewhere; a new body
starts active). -/
def newBtBody (mass : ℚ) (startTransform : BtTransform) : BtBody where
  worldTransform := startTransform
  interpTransform := startTransform
  linearVelocity := 0
  angularVelocity := 0
  gravity := 0
  disableWorldGravity := false
  activated := true
  collisionShape := .compound
  massVal := mass
  localInertia := 0
  linearFactor := ⟨1, 1, 1⟩
  angularFactor := ⟨1, 1, 1⟩
  linearDamping := 0
  angularDamping := 0
  linearSleepThreshold := 4 / 5
  angularSleepThreshold := 1
  friction := 1 / 2
  rollingFriction := 0
  restitution := 0
  contactProcessingThreshold := 10 ^ 18
  ccdRadius := 0
  ccdMotionThreshold := 0
  noContactResponse := false
  kinematicFlag := false
  customMaterial := false

/-- Negative-mass clamp at the top of `RigidBody::AddBodyToWorld`
(RigidBody.cpp:908-909). -/
def clampMass (s : RigidBodyState) : RigidBodyState :=
  if s.mass < 0 then { s with mass := 0 } else s

/-- Preparation stage of `RigidBody::AddBodyToWorld` (RigidBody.cpp:908-943):
clamp a negative stored mass to zero, then either remove a pre-existing body
from the world or construct a fresh one.  In the creation branch the
`btRigidBody` constructor pulls its start transform through the
`getWorldTransform` motion-state callback (refreshing the last-known caches
when the node exists), and the `SmoothedTransform` component is looked up.
Shape and constraint collaborator notifications there are external
(`CollisionShape`/`Constraint` live outside this file) and have no direct
effect on this component's state. -/
def prepareBody (s : RigidBodyState) : RigidBodyState × List PhysEvent :=
  let s := clampMass s
  match s.body with
  | some _ => removeBodyFromWorld s
  | none =>
    match s.node with
    | some n =>
      ({ s with
          lastPosition := n.worldPosition, lastRotation := n.worldRotation,
          body := some (newBtBody s.mass
            ⟨n.worldPosition + Quat.rotv n.worldRotation s.centerOfMass, n.worldRotation⟩),
          hasSmoothedTransform := s.smoothedAvailable || s.hasSmoothedTransform }, [])
    | none =>
      ({ s with
          body := some (newBtBody s.mass BtTransform.identity),
          hasSmoothedTransform := s.smoothedAvailable || s.hasSmoothedTransform }, [])

/-- Collision-flag stage of `RigidBody::AddBodyToWorld`
(RigidBody.cpp:948-957): phantom and kinematic flags are written onto the
body. -/
def setCollisionFlagsStep (s : RigidBodyState) : RigidBodyState :=
  match s.body with
  | some b =>
    { s with body := some { b with noContactResponse := s.phantom,
                                   kinematicFlag := s.kinematic } }
  | none => s

/-- Insertion stage of `RigidBody::AddBodyToWorld` (RigidBody.cpp:959-973):
only when the entity is enabled, insert with the current layer/mask and mark
in-world; wake when massive, else force both velocities to zero. -/
def insertIntoWorld (s : RigidBodyState) : RigidBodyState × List PhysEvent :=
  if !s.enabled then (s, [])
  else
    let s := { s with worldEntry := some (s.collisionLayer, s.collisionMask),
                      inWorld := true, readdBody := false }
    let tAdd := [PhysEvent.addToWorld s.collisionLayer s.collisionMask]
    if 0 < s.mass then
      let (s4, t4) := activate s
      (s4, tAdd ++ t4)
    else
      let (s4, t4) := setLinearVelocity s 0
      let (s5, t5) := setAngularVelocity s4 0
      (s5, tAdd ++ t4 ++ t5)

/-- `RigidBody::AddBodyToWorld` (RigidBody.cpp:901-974), assembled from its
stages: prepare the body, recompute mass properties, resolve gravity, write
collision flags, then insert into the world when enabled. -/
def addBodyToWorld (s : RigidBodyState) : RigidBodyState × List PhysEvent :=
  match s.physicsWorld with
  | none => (s, [])
  | some _ =>
    let (s1, t1) := prepareBody s
    let (s2, t2) := updateMass s1
    let (s3, t3) := updateGravity s2
    let s4 := setCollisionFlagsStep s3
    let (s5, t5) := insertIntoWorld s4
    (s5, t1 ++ t2 ++ t3 ++ t5)

/-- `RigidBody::SetMass` (RigidBody.cpp:217-227): clamps to zero, then on
change stores the mass and performs a full rebuild. -/
def setMass (s : RigidBodyState) (mass : ℚ) : RigidBodyState × List PhysEvent :=
  let mass := max mass 0
  if mass ≠ s.mass then addBodyToWorld { s with mass := mass }
  else (s, [])

/-- `RigidBody::SetKinematic` (RigidBody.cpp:441-449). -/
def setKinematic (s : RigidBodyState) (enable : Bool) : RigidBodyState × List PhysEvent :=
  if enable = s.kinematic then (s, [])
  else addBodyToWorld { s with kinematic := enable }

/-- `RigidBody::SetPhantom` (RigidBody.cpp:451-459). -/
def setPhantom (s : RigidBodyState) (enable : Bool) : RigidBodyState × List PhysEvent :=
  if enable = s.phantom then (s, [])
  else addBodyToWorld { s with phantom := enable }

/-- `RigidBody::SetCollisionLayer` (RigidBody.cpp:461-469). -/
def setCollisionLayer (s : RigidBodyState) (layer : ℕ) : RigidBodyState × List PhysEvent :=
  if layer = s.collisionLayer then (s, [])
  else addBodyToWorld { s with collisionLayer := layer }

/-- `RigidBody::SetCollisionMask` (RigidBody.cpp:471-479). -/
def setCollisionMask (s : RigidBodyState) (mask : ℕ) : RigidBodyState × List PhysEvent :=
  if mask = s.collisionMask then (s, [])
  else addBodyToWorld { s with collisionMask := mask }

/-- `RigidBody::SetCollisionLayerAndMask` (RigidBody.cpp:481-490). -/
def setCollisionLayerAndMask (s : RigidBodyState) (layer mask : ℕ) :
    RigidBodyState × List PhysEvent :=
  if layer = s.collisionLayer ∧ mask = s.collisionMask then (s, [])
  else addBodyToWorld { s with collisionLayer := layer, collisionMask := mask }

/-- `RigidBody::SetCollisionEventMode` (RigidBody.cpp:492-496). -/
def setCollisionEventMode (s : RigidBodyState) (mode : CollisionEventMode) :
    RigidBodyState × List PhysEvent :=
  ({ s with collisionEventMode := mode }, [])

/-- `RigidBody::ReAddBodyToWorld` (RigidBody.cpp:564-568). -/
def reAddBodyToWorld (s : RigidBodyState) : RigidBodyState × List PhysEvent :=
  if s.body.isSome && s.inWorld then addBodyToWorld s else (s, [])

/-- `RigidBody::OnSetEnabled` (RigidBody.cpp:147-155), with the new
effective-enabled value made explicit. -/
def onSetEnabled (s : RigidBodyState) (enabled : Bool) : RigidBodyState × List PhysEvent :=
  let s := { s with enabled := enabled }
  if enabled && !s.inWorld then addBodyToWorld s
  else if !enabled && s.inWorld then removeBodyFromWorld s
  else (s, [])

/-- The mutating operations of the component's interface, for quantifying
over arbitrary call sequences. -/
inductive Op where
  | setMass (m : ℚ)
  | setPosition (p : Vec3)
  | setRotation (q : Quat)
  | setTransform (p : Vec3) (q : Quat)
  | setLinearVelocity (v : Vec3)
  | setAngularVelocity (v : Vec3)
  | setLinearFactor (v : Vec3)
  | setAngularFactor (v : Vec3)
  | setLinearRestThreshold (r : ℚ)
  | setAngularRestThreshold (r : ℚ)
  | setLinearDamping (d : ℚ)
  | setAngularDamping (d : ℚ)
  | setFriction (f : ℚ)
  | setRollingFriction (f : ℚ)
  | setRestitution (r : ℚ)
  | setContactProcessingThreshold (t : ℚ)
  | setCcdRadius (r : ℚ)
  | setCcdMotionThreshold (t : ℚ)
  | setUseGravity (b : Bool)
  | setGravityOverride (g : Vec3)
  | setKinematic (b : Bool)
  | setPhantom (b : Bool)
  | setCollisionLayer (l : ℕ)
  | setCollisionMask (m : ℕ)
  | setCollisionLayerAndMask (l m : ℕ)
  | setCollisionEventMode (m : CollisionEventMode)
  | applyForce (f : Vec3)
  | applyForceAt (f p : Vec3)
  | applyTorque (t : Vec3)
  | applyImpulse (i : Vec3)
  | applyImpulseAt (i p : Vec3)
  | applyTorqueImpulse (t : Vec3)
  | resetForces
  | activate
  | reAddBodyToWorld
  | addConstraint (c : ℕ)
  | removeConstraint (c : ℕ)
  | removeBodyFromWorld
  | addBodyToWorld
  | updateMass
  | updateGravity
  | setWorldTransform (t : BtTransform)
  | getWorldTransform
  | onSetEnabled (b : Bool)

/-- Dispatch an operation to the corresponding modelled function. -/
def applyOp (op : Op) (s : RigidBodyState) : RigidBodyState × List PhysEvent :=
  match op with
  | .setMass m => setMass s m
  | .setPosition p => setPosition s p
  | .setRotation q => setRotation s q
  | .setTransform p q => setTransform s p q
  | .setLinearVelocity v => setLinearVelocity s v
  | .setAngularVelocity v => setAngularVelocity s v
  | .setLinearFactor v => setLinearFactor s v
  | .setAngularFactor v => setAngularFactor s v
  | .setLinearRestThreshold r => setLinearRestThreshold s r
  | .setAngularRestThreshold r => setAngularRestThreshold s r
  | .setLinearDamping d => setLinearDamping s d
  | .setAngularDamping d => setAngularDamping s d
  | .setFriction f => setFriction s f
  | .setRollingFriction f => setRollingFriction s f
  | .setRestitution r => setRestitution s r
  | .setContactProcessingThreshold t => setContactProcessingThreshold s t
  | .setCcdRadius r => setCcdRadius s r
  | .setCcdMotionThreshold t => setCcdMotionThreshold s t
  | .setUseGravity b => setUseGravity s b
  | .setGravityOverride g => setGravityOverride s g
  | .setKinematic b => setKinematic s b
  | .setPhantom b => setPhantom s b
  | .setCollisionLayer l => setCollisionLayer s l
  | .setCollisionMask m => setCollisionMask s m
  | .setCollisionLayerAndMask l m => setCollisionLayerAndMask s l m
  | .setCollisionEventMode m => setCollisionEventMode s m
  | .applyForce f => applyForce s f
  | .applyForceAt f p => applyForceAt s f p
  | .applyTorque t => applyTorque s t
  | .applyImpulse i => applyImpulse s i
  | .applyImpulseAt i p => applyImpulseAt s i p
  | .applyTorqueImpulse t => applyTorqueImpulse s t
  | .resetForces => resetForces s
  | .activate => activate s
  | .reAddBodyToWorld => reAddBodyToWorld s
  | .addConstraint c => addConstraint s c
  | .removeConstraint c => removeConstraint s c
  | .removeBodyFromWorld => removeBodyFromWorld s
  | .addBodyToWorld => addBodyToWorld s
  | .updateMass => updateMass s
  | .updateGravity => updateGravity s
  | .setWorldTransform t => setWorldTransform s t
  | .getWorldTransform => ((getWorldTransform s).1, [])
  | .onSetEnabled b => onSetEnabled s b

/-- Concrete child shape used by witness states. -/
def sampleShape : ChildShape := ⟨7, 3⟩

/-- Concrete compound child used by witness states. -/
def sampleChild : CompoundChild := ⟨⟨⟨1, 2, 3⟩, Quat.identity⟩, sampleShape⟩

/-- Concrete physics world used by witness states. -/
def sampleWorld : PhysicsWorldState := ⟨⟨0, -10, 0⟩, false, false, []⟩

/-- Concrete Bullet body used by witness states. -/
def sampleBody : BtBody := newBtBody 1 BtTransform.identity

/-- Concrete scene node used by witness states. -/
def sampleNode : NodeState := ⟨⟨2, 0, 0⟩, Quat.identity, false⟩

/-- Concrete component state used by witnesses: an enabled, in-world body of
mass one with a single contributed shape and one attached constraint. -/
def sampleState : RigidBodyState where
  body := some sampleBody
  node := some sampleNode
  physicsWorld := some sampleWorld
  mass := 1
  centerOfMass := 0
  compoundShape := [sampleChild]
  shiftedCompoundShape := []
  gravityOverride := 0
  useGravity := true
  collisionLayer := 1
  collisionMask := 3
  collisionEventMode := .whenActive
  kinematic := false
  phantom := false
  hasSmoothedTransform := false
  smoothedAvailable := false
  smoothTargetPosition := 0
  smoothTargetRotation := Quat.identity
  inWorld := true
  readdBody := false
  enabled := true
  lastPosition := 0
  lastRotation := Quat.identity
  constraints := [5]
  worldEntry := some (1, 3)

/-- Variant of `sampleState` whose body is asleep. -/
def sleepingState : RigidBodyState :=
  { sampleState with body := some { sampleBody with activated := false } }

/-- Variant of `sampleState` that is massless and asleep. -/
def masslessState : RigidBodyState :=
  { sampleState with mass := 0, body := some { sampleBody with activated := false } }

/-- Variant of `sampleState` with no simulated body. -/
def noBodyState : RigidBodyState := { sampleState with body := none }

/-- The shifted compound shape mirrors the source compound shape: the same
child count, identical child shapes in the same order, unchanged child
rotations, and each shifted child's translation equal to the original
translation minus the current center of mass. -/
def shiftedMirror (s : RigidBodyState) : Prop :=
  s.shiftedCompoundShape.length = s.compoundShape.length ∧
  ∀ i (h1 : i < s.shiftedCompoundShape.length) (h2 : i < s.compoundShape.length),
    (s.shiftedCompoundShape.get ⟨i, h1⟩).shape = (s.compoundShape.get ⟨i, h2⟩).shape ∧
    (s.shiftedCompoundShape.get ⟨i, h1⟩).transform.origin =
      (s.compoundShape.get ⟨i, h2⟩).transform.origin - s.centerOfMass ∧
    (s.shiftedCompoundShape.get ⟨i, h1⟩).transform.rotation =
      (s.compoundShape.get ⟨i, h2⟩).transform.rotation

@[simp] theorem Vec3.zero_def : (0 : Vec3) = Vec3.zero := rfl

theorem Vec3.ext_iff (a b : Vec3) : a = b ↔ a.x = b.x ∧ a.y = b.y ∧ a.z = b.z := by
  constructor
  · intro h; subst h; exact ⟨rfl, rfl, rfl⟩
  · rintro ⟨hx, hy, hz⟩; cases a; cases b; simp_all

@[simp] theorem Vec3.add_x (a b : Vec3) : (a + b).x = a.x + b.x := rfl
@[simp] theorem Vec3.add_y (a b : Vec3) : (a + b).y = a.y + b.y := rfl
@[simp] theorem Vec3.add_z (a b : Vec3) : (a + b).z = a.z + b.z := rfl
@[simp] theorem Vec3.sub_x (a b : Vec3) : (a - b).x = a.x - b.x := rfl
@[simp] theorem Vec3.sub_y (a b : Vec3) : (a - b).y = a.y - b.y := rfl
@[simp] theorem Vec3.sub_z (a b : Vec3) : (a - b).z = a.z - b.z := rfl

theorem Vec3.sub_add_cancel (a b : Vec3) : a - b + b = a := by
  rw [Vec3.ext_iff]
  exact ⟨by simp, by simp, by simp⟩

/-- One mirrored state arising from an equationally known rebuild. -/
theorem shiftedMirror_of_eq (s : RigidBodyState)
    (h : s.shiftedCompoundShape = shiftChildren s.compoundShape s.centerOfMass) :
    shiftedMirror s := by
  constructor
  · rw [h]; simp [shiftChildren]
  · intro i h1 h2
    simp [h, shiftChildren]

section Characterizations

variable (s : RigidBodyState) (b : BtBody) (w : PhysicsWorldState)

theorem activate_some (hb : s.body = some b) :
    activate s = if 0 < s.mass
      then ({ s with body := some { b with activated := true } }, [PhysEvent.activate])
      else (s, []) := by
  unfold activate; rw [hb]

theorem activate_none (hb : s.body = none) : activate s = (s, []) := by
  unfold activate; rw [hb]

theorem updateGravity_some (hw : s.physicsWorld = some w) (hb : s.body = some b) :
    updateGravity s = ({ s with body := some { b with
        disableWorldGravity := ! (s.useGravity && decide (s.gravityOverride = Vec3.zero)),
        gravity := if s.useGravity then
            (if s.gravityOverride = Vec3.zero then w.gravity else s.gravityOverride)
          else Vec3.zero } }, []) := by
  unfold updateGravity; rw [hw, hb]

theorem updateGravity_bodyNone (hb : s.body = none) : updateGravity s = (s, []) := by
  unfold updateGravity; rw [hb]; cases s.physicsWorld <;> rfl

theorem updateGravity_worldNone (hw : s.physicsWorld = none) : updateGravity s = (s, []) := by
  unfold updateGravity; rw [hw]

theorem updateMass_none (hb : s.body = none) : updateMass s = (s, []) := by
  unfold updateMass; rw [hb]

theorem updateMass_facts (hb : s.body = some b) :
    (updateMass s).1.shiftedCompoundShape =
      shiftChildren s.compoundShape (principalOf s.compoundShape) ∧
    (updateMass s).1.centerOfMass = principalOf s.compoundShape ∧
    (updateMass s).1.compoundShape = s.compoundShape ∧
    (updateMass s).1.mass = s.mass ∧
    (updateMass s).1.inWorld = s.inWorld ∧
    (updateMass s).1.worldEntry = s.worldEntry ∧
    (updateMass s).1.enabled = s.enabled ∧
    (updateMass s).1.collisionLayer = s.collisionLayer ∧
    (updateMass s).1.collisionMask = s.collisionMask ∧
    (updateMass s).1.physicsWorld = s.physicsWorld ∧
    (updateMass s).1.kinematic = s.kinematic ∧
    (updateMass s).1.phantom = s.phantom ∧
    (updateMass s).1.constraints = s.constraints ∧
    (updateMass s).2 = (if 0 < s.mass then [PhysEvent.activate] else []) ∧
    (updateMass s).1.body.map BtBody.linearVelocity = some b.linearVelocity ∧
    (updateMass s).1.body.map BtBody.angularVelocity = some b.angularVelocity ∧
    (updateMass s).1.body.map BtBody.activated =
      some (b.activated || decide (0 < s.mass)) := by
  unfold updateMass setPosition activate
  rw [hb]
  by_cases hm : 0 < s.mass <;> simp [hm]

theorem updateMass_collisionShape (hb : s.body = some b) :
    (updateMass s).1.body.map BtBody.collisionShape = some (
      if s.compoundShape.length = 1 then
        match (shiftChildren s.compoundShape (principalOf s.compoundShape)).head? with
        | some c =>
          if c.transform.origin = Vec3.zero ∧ c.transform.rotation = Quat.identity
          then ShapeRef.child c.shape else ShapeRef.compound
        | none => ShapeRef.compound
      else ShapeRef.compound) := by
  unfold updateMass setPosition activate
  rw [hb]
  by_cases hl : s.compoundShape.length = 1
  · cases hs : (shiftChildren s.compoundShape (principalOf s.compoundShape)).head?
    · by_cases hm : 0 < s.mass <;> simp [hl, hs, hm]
    · rename_i c
      by_cases ho : c.transform.origin = Vec3.zero <;>
        by_cases hr : c.transform.rotation = Quat.identity <;>
        by_cases hm : 0 < s.mass <;>
        simp [hl, hs, hm, ho, hr]
  · by_cases hm : 0 < s.mass <;> simp [hl, hm]

theorem clampMass_eq : clampMass s = { s with mass := max s.mass 0 } := by
  unfold clampMass
  split
  · rw [max_eq_right (le_of_lt (by assumption))]
  · rw [max_eq_left (not_lt.mp (by assumption))]

theorem removeBodyFromWorld_spec :
    removeBodyFromWorld s =
      if s.physicsWorld.isSome && s.body.isSome && s.inWorld then
        ({ s with inWorld := false, worldEntry := none }, [PhysEvent.removeFromWorld])
      else (s, []) := rfl

theorem prepareBody_some (hb : s.body = some b) :
    prepareBody s = removeBodyFromWorld { s with mass := max s.mass 0 } := by
  unfold prepareBody
  rw [clampMass_eq]
  simp only [hb]

theorem prepareBody_none_facts (hb : s.body = none) :
    (prepareBody s).2 = [] ∧
    (prepareBody s).1.inWorld = s.inWorld ∧
    (prepareBody s).1.worldEntry = s.worldEntry := by
  unfold prepareBody
  rw [clampMass_eq]
  simp only [hb]
  cases s.node <;> simp

theorem prepareBody_facts :
    (prepareBody s).1.body.isSome = true ∧
    (prepareBody s).1.mass = max s.mass 0 ∧
    (prepareBody s).1.compoundShape = s.compoundShape ∧
    (prepareBody s).1.shiftedCompoundShape = s.shiftedCompoundShape ∧
    (prepareBody s).1.centerOfMass = s.centerOfMass ∧
    (prepareBody s).1.enabled = s.enabled ∧
    (prepareBody s).1.collisionLayer = s.collisionLayer ∧
    (prepareBody s).1.collisionMask = s.collisionMask ∧
    (prepareBody s).1.physicsWorld = s.physicsWorld ∧
    (prepareBody s).1.kinematic = s.kinematic ∧
    (prepareBody s).1.phantom = s.phantom ∧
    (prepareBody s).1.constraints = s.constraints := by
  unfold prepareBody removeBodyFromWorld
  rw [clampMass_eq]
  cases hb : s.body
  · cases hn : s.node <;> simp [hb, hn]
  · simp only [hb]
    split <;> simp_all

theorem setCollisionFlagsStep_some (hb : s.body = some b) :
    setCollisionFlagsStep s = { s with body := some { b with
        noContactResponse := s.phantom, kinematicFlag := s.kinematic } } := by
  unfold setCollisionFlagsStep; rw [hb]

theorem insertIntoWorld_disabled (he : s.enabled = false) :
    insertIntoWorld s = (s, []) := by
  unfold insertIntoWorld; rw [he]; rfl

theorem insertIntoWorld_enabled_massive (he : s.enabled = true) (hm : 0 < s.mass)
    (hb : s.body = some b) :
    insertIntoWorld s = ({ s with
        worldEntry := some (s.collisionLayer, s.collisionMask),
        inWorld := true, readdBody := false,
        body := some { b with activated := true } },
      [PhysEvent.addToWorld s.collisionLayer s.collisionMask, PhysEvent.activate]) := by
  unfold insertIntoWorld activate
  rw [he]
  simp [hb, hm]

theorem insertIntoWorld_enabled_massless (he : s.enabled = true) (hm : ¬ 0 < s.mass)
    (hb : s.body = some b) :
    insertIntoWorld s = ({ s with
        worldEntry := some (s.collisionLayer, s.collisionMask),
        inWorld := true, readdBody := false,
        body := some { b with linearVelocity := 0, angularVelocity := 0 } },
      [PhysEvent.addToWorld s.collisionLayer s.collisionMask,
       PhysEvent.setLinearVelocity 0, PhysEvent.setAngularVelocity 0]) := by
  unfold insertIntoWorld setLinearVelocity setAngularVelocity
  rw [he]
  simp [hb, hm]

theorem setLinearVelocity_none (v : Vec3) (hb : s.body = none) :
    setLinearVelocity s v = (s, []) := by
  unfold setLinearVelocity; rw [hb]

theorem setLinearVelocity_some (v : Vec3) (hb : s.body = some b) :
    setLinearVelocity s v =
      if v = Vec3.zero then
        ({ s with body := some { b with linearVelocity := v } },
         [PhysEvent.setLinearVelocity v])
      else if 0 < s.mass then
        ({ s with body := some { b with linearVelocity := v, activated := true } },
         [PhysEvent.setLinearVelocity v, PhysEvent.activate])
      else
        ({ s with body := some { b with linearVelocity := v } },
         [PhysEvent.setLinearVelocity v]) := by
  unfold setLinearVelocity activate
  rw [hb]
  by_cases hv : v = Vec3.zero
  · simp [hv]
  · by_cases hm : 0 < s.mass <;> simp [hv, hm]

theorem setAngularVelocity_none (v : Vec3) (hb : s.body = none) :
    setAngularVelocity s v = (s, []) := by
  unfold setAngularVelocity; rw [hb]

theorem setAngularVelocity_some (v : Vec3) (hb : s.body = some b) :
    setAngularVelocity s v =
      if v = Vec3.zero then
        ({ s with body := some { b with angularVelocity := v } },
         [PhysEvent.setAngularVelocity v])
      else if 0 < s.mass then
        ({ s with body := some { b with angularVelocity := v, activated := true } },
         [PhysEvent.setAngularVelocity v, PhysEvent.activate])
      else
        ({ s with body := some { b with angularVelocity := v } },
         [PhysEvent.setAngularVelocity v]) := by
  unfold setAngularVelocity activate
  rw [hb]
  by_cases hv : v = Vec3.zero
  · simp [hv]
  · by_cases hm : 0 < s.mass <;> simp [hv, hm]

theorem updateGravity_frame :
    (updateGravity s).1.shiftedCompoundShape = s.shiftedCompoundShape ∧
    (updateGravity s).1.compoundShape = s.compoundShape ∧
    (updateGravity s).1.centerOfMass = s.centerOfMass ∧
    (updateGravity s).1.inWorld = s.inWorld ∧
    (updateGravity s).1.worldEntry = s.worldEntry ∧
    (updateGravity s).1.enabled = s.enabled ∧
    (updateGravity s).1.mass = s.mass ∧
    (updateGravity s).1.collisionLayer = s.collisionLayer ∧
    (updateGravity s).1.collisionMask = s.collisionMask ∧
    (updateGravity s).1.constraints = s.constraints ∧
    (updateGravity s).1.body.isSome = s.body.isSome ∧
    (updateGravity s).1.body.map BtBody.linearVelocity = s.body.map BtBody.linearVelocity ∧
    (updateGravity s).1.body.map BtBody.angularVelocity = s.body.map BtBody.angularVelocity ∧
    (updateGravity s).1.body.map BtBody.activated = s.body.map BtBody.activated ∧
    (updateGravity s).2 = [] := by
  unfold updateGravity
  cases hw : s.physicsWorld <;> cases hb : s.body <;> simp [hw, hb]

theorem setCollisionFlagsStep_frame :
    (setCollisionFlagsStep s).shiftedCompoundShape = s.shiftedCompoundShape ∧
    (setCollisionFlagsStep s).compoundShape = s.compoundShape ∧
    (setCollisionFlagsStep s).centerOfMass = s.centerOfMass ∧
    (setCollisionFlagsStep s).inWorld = s.inWorld ∧
    (setCollisionFlagsStep s).worldEntry = s.worldEntry ∧
    (setCollisionFlagsStep s).enabled = s.enabled ∧
    (setCollisionFlagsStep s).mass = s.mass ∧
    (setCollisionFlagsStep s).collisionLayer = s.collisionLayer ∧
    (setCollisionFlagsStep s).collisionMask = s.collisionMask ∧
    (setCollisionFlagsStep s).constraints = s.constraints ∧
    (setCollisionFlagsStep s).body.isSome = s.body.isSome ∧
    (setCollisionFlagsStep s).body.map BtBody.linearVelocity =
      s.body.map BtBody.linearVelocity ∧
    (setCollisionFlagsStep s).body.map BtBody.angularVelocity =
      s.body.map BtBody.angularVelocity ∧
    (setCollisionFlagsStep s).body.map BtBody.activated = s.body.map BtBody.activated := by
  unfold setCollisionFlagsStep
  cases hb : s.body <;> simp [hb]

theorem insertIntoWorld_geom :
    (insertIntoWorld s).1.shiftedCompoundShape = s.shiftedCompoundShape ∧
    (insertIntoWorld s).1.compoundShape = s.compoundShape ∧
    (insertIntoWorld s).1.centerOfMass = s.centerOfMass ∧
    (insertIntoWorld s).1.mass = s.mass ∧
    (insertIntoWorld s).1.constraints = s.constraints ∧
    (insertIntoWorld s).1.body.isSome = s.body.isSome := by
  unfold insertIntoWorld activate setLinearVelocity setAngularVelocity
  by_cases he : s.enabled <;> cases hb : s.body <;>
    by_cases hm : 0 < s.mass <;> simp [he, hb, hm]

theorem addBodyToWorld_eq (hw : s.physicsWorld = some w) :
    addBodyToWorld s =
      (let s1 := (prepareBody s).1
       let s2 := (updateMass s1).1
       let s3 := (updateGravity s2).1
       let s4 := setCollisionFlagsStep s3
       ((insertIntoWorld s4).1,
        (prepareBody s).2 ++ (updateMass s1).2 ++ (updateGravity s2).2 ++
          (insertIntoWorld s4).2)) := by
  unfold addBodyToWorld
  rw [hw]

theorem addBodyToWorld_worldNone (hw : s.physicsWorld = none) :
    addBodyToWorld s = (s, []) := by
  unfold addBodyToWorld
  rw [hw]

theorem addBodyToWorld_stages (hw : s.physicsWorld = some w) :
    addBodyToWorld s =
      ((insertIntoWorld (setCollisionFlagsStep (updateGravity
          (updateMass (prepareBody s).1).1).1)).1,
       (prepareBody s).2 ++ (updateMass (prepareBody s).1).2 ++
         (updateGravity (updateMass (prepareBody s).1).1).2 ++
         (insertIntoWorld (setCollisionFlagsStep (updateGravity
           (updateMass (prepareBody s).1).1).1)).2) := by
  rw [addBodyToWorld_eq s w hw]

theorem addBodyToWorld_shifted :
    (addBodyToWorld s).1.shiftedCompoundShape = s.shiftedCompoundShape ∨
    shiftedMirror (addBodyToWorld s).1 := by
  cases hw : s.physicsWorld
  · rw [addBodyToWorld_worldNone s hw]
    left
    rfl
  · right
    rw [addBodyToWorld_eq s _ hw]
    obtain ⟨hb1, -, hc1, -⟩ := prepareBody_facts s
    obtain ⟨b1, hb1e⟩ := Option.isSome_iff_exists.mp hb1
    obtain ⟨hsh2, hcom2, hc2, -⟩ := updateMass_facts (prepareBody s).1 b1 hb1e
    obtain ⟨hsh3, hc3, hcom3, -⟩ := updateGravity_frame (updateMass (prepareBody s).1).1
    obtain ⟨hsh4, hc4, hcom4, -⟩ :=
      setCollisionFlagsStep_frame (updateGravity (updateMass (prepareBody s).1).1).1
    obtain ⟨hsh5, hc5, hcom5, -⟩ :=
      insertIntoWorld_geom (setCollisionFlagsStep (updateGravity
        (updateMass (prepareBody s).1).1).1)
    apply shiftedMirror_of_eq
    rw [hsh5, hsh4, hsh3, hsh2, hc5, hc4, hc3, hc2, hcom5, hcom4, hcom3, hcom2, hc1]

theorem addBodyToWorld_mass (hw : s.physicsWorld = some w) :
    (addBodyToWorld s).1.mass = max s.mass 0 := by
  rw [addBodyToWorld_eq s _ hw]
  obtain ⟨hb1, hm1, -⟩ := prepareBody_facts s
  obtain ⟨b1, hb1e⟩ := Option.isSome_iff_exists.mp hb1
  obtain ⟨-, -, -, hm2, -⟩ := updateMass_facts (prepareBody s).1 b1 hb1e
  obtain ⟨-, -, -, -, -, -, hm3, -⟩ := updateGravity_frame (updateMass (prepareBody s).1).1
  obtain ⟨-, -, -, -, -, -, hm4, -⟩ :=
    setCollisionFlagsStep_frame (updateGravity (updateMass (prepareBody s).1).1).1
  obtain ⟨-, -, -, hm5, -⟩ :=
    insertIntoWorld_geom (setCollisionFlagsStep (updateGravity
      (updateMass (prepareBody s).1).1).1)
  show (insertIntoWorld (setCollisionFlagsStep (updateGravity
      (updateMass (prepareBody s).1).1).1)).1.mass = max s.mass 0
  rw [hm5, hm4, hm3, hm2, hm1]

theorem prepareBody_bodySome (hb : s.body = some b) :
    (prepareBody s).1.body = some b := by
  rw [prepareBody_some s b hb, removeBodyFromWorld_spec]
  split <;> simp [hb]

theorem addBodyToWorld_motion (hb : s.body = some b) (hw : s.physicsWorld = some w)
    (he : s.enabled = true) :
    (0 < s.mass →
      (addBodyToWorld s).1.body.map BtBody.linearVelocity = some b.linearVelocity ∧
      (addBodyToWorld s).1.body.map BtBody.angularVelocity = some b.angularVelocity ∧
      (addBodyToWorld s).1.body.map BtBody.activated = some true) ∧
    (¬ 0 < s.mass →
      (addBodyToWorld s).1.body.map BtBody.linearVelocity = some 0 ∧
      (addBodyToWorld s).1.body.map BtBody.angularVelocity = some 0 ∧
      (addBodyToWorld s).1.body.map BtBody.activated = some b.activated) := by
  have heq := addBodyToWorld_stages s w hw
  have hb1e : (prepareBody s).1.body = some b := prepareBody_bodySome s b hb
  obtain ⟨-, hm1, -, -, -, he1, -, -, -, -, -, -⟩ := prepareBody_facts s
  obtain ⟨-, -, -, hm2, -, -, he2, -, -, -, -, -, -, -, hlv2, hav2, hac2⟩ :=
    updateMass_facts (prepareBody s).1 b hb1e
  obtain ⟨-, -, -, -, -, he3, hm3, -, -, -, -, hlv3, hav3, hac3, -⟩ :=
    updateGravity_frame (updateMass (prepareBody s).1).1
  obtain ⟨-, -, -, -, -, he4, hm4, -, -, -, -, hlv4, hav4, hac4⟩ :=
    setCollisionFlagsStep_frame (updateGravity (updateMass (prepareBody s).1).1).1
  set s4 := setCollisionFlagsStep (updateGravity (updateMass (prepareBody s).1).1).1
    with hs4
  have hlv : s4.body.map BtBody.linearVelocity = some b.linearVelocity := by
    rw [hlv4, hlv3, hlv2]
  have hav : s4.body.map BtBody.angularVelocity = some b.angularVelocity := by
    rw [hav4, hav3, hav2]
  have hac : s4.body.map BtBody.activated =
      some (b.activated || decide (0 < (prepareBody s).1.mass)) := by
    rw [hac4, hac3, hac2]
  have hm4e : s4.mass = max s.mass 0 := by rw [hm4, hm3, hm2, hm1]
  have he4e : s4.enabled = true := by rw [he4, he3, he2, he1, he]
  rcases hx : s4.body with _ | b4
  · rw [hx] at hlv; simp at hlv
  · have hb4l : b4.linearVelocity = b.linearVelocity := by rw [hx] at hlv; simpa using hlv
    have hb4a : b4.angularVelocity = b.angularVelocity := by rw [hx] at hav; simpa using hav
    constructor
    · intro hm
      have hm4t : 0 < s4.mass := by rw [hm4e]; exact lt_max_iff.mpr (Or.inl hm)
      have hins := insertIntoWorld_enabled_massive s4 b4 he4e hm4t hx
      rw [heq, hins]
      exact ⟨by simp [hb4l], by simp [hb4a], by simp⟩
    · intro hm
      have hm4f : ¬ 0 < s4.mass := by
        rw [hm4e, max_eq_right (not_lt.mp hm)]
        exact lt_irrefl 0
      have hins := insertIntoWorld_enabled_massless s4 b4 he4e hm4f hx
      have hb4act : b4.activated = b.activated := by
        rw [hx] at hac
        have hdm : decide (0 < (prepareBody s).1.mass) = false := by
          rw [hm1, max_eq_right (not_lt.mp hm)]
          simp
        rw [hdm] at hac
        simpa using hac
      rw [heq, hins]
      exact ⟨by simp, by simp, by simp [hb4act]⟩

end Characterizations

/-- Claim C1: for every position `p` and rotation `r`, when the owning node
exists, no non-root parent carries a rigid body, and no smoothing
collaborator is active, `setWorldTransform ⟨p, r⟩` stores node position
`p - r * centerOfMass` and rotation `r`, and a following `getWorldTransform`
returns exactly `(p, r)` (it reads `nodePosition + nodeRotation *
centerOfMass` and `nodeRotation`). -/
theorem claim1_transform_roundtrip (s : RigidBodyState) (n : NodeState) (p : Vec3) (r : Quat)
    (hn : s.node = some n) (hpar : n.parentRigidBody = false)
    (hsm : s.hasSmoothedTransform = false) :
    (setWorldTransform s ⟨p, r⟩).1.node =
      some { n with worldPosition := p - Quat.rotv r s.centerOfMass, worldRotation := r } ∧
    (getWorldTransform (setWorldTransform s ⟨p, r⟩).1).2 = some ⟨p, r⟩ := by
  unfold setWorldTransform applyWorldTransform getWorldTransform
  rw [hn]
  simp [hpar, hsm, Vec3.sub_add_cancel]

theorem claim1_witness :
    sampleState.node = some sampleNode ∧ sampleNode.parentRigidBody = false ∧
    sampleState.hasSmoothedTransform = false ∧
    ((setWorldTransform sampleState ⟨⟨4, 5, 6⟩, Quat.identity⟩).1.node =
      some { sampleNode with
              worldPosition := ⟨4, 5, 6⟩ - Quat.rotv Quat.identity sampleState.centerOfMass,
              worldRotation := Quat.identity } ∧
     (getWorldTransform (setWorldTransform sampleState ⟨⟨4, 5, 6⟩, Quat.identity⟩).1).2 =
      some ⟨⟨4, 5, 6⟩, Quat.identity⟩) :=
  ⟨rfl, rfl, rfl,
   claim1_transform_roundtrip sampleState sampleNode ⟨4, 5, 6⟩ Quat.identity rfl rfl rfl⟩

/-- Claim C3: gravity resolution with an existing world and body: useGravity
off yields zero gravity with the disable-world-gravity flag set; useGravity
on with a zero override yields the world gravity with the flag cleared;
useGravity on with a nonzero override yields the override with the flag
set. -/
theorem claim3_gravity_resolution (s : RigidBodyState) (b : BtBody) (w : PhysicsWorldState)
    (hw : s.physicsWorld = some w) (hb : s.body = some b) :
    (s.useGravity = false →
      (updateGravity s).1.body.map BtBody.gravity = some Vec3.zero ∧
      (updateGravity s).1.body.map BtBody.disableWorldGravity = some true) ∧
    (s.useGravity = true → s.gravityOverride = Vec3.zero →
      (updateGravity s).1.body.map BtBody.gravity = some w.gravity ∧
      (updateGravity s).1.body.map BtBody.disableWorldGravity = some false) ∧
    (s.useGravity = true → s.gravityOverride ≠ Vec3.zero →
      (updateGravity s).1.body.map BtBody.gravity = some s.gravityOverride ∧
      (updateGravity s).1.body.map BtBody.disableWorldGravity = some true) := by
  rw [updateGravity_some s b w hw hb]
  refine ⟨fun hu => ?_, fun hu hg => ?_, fun hu hg => ?_⟩
  · simp [hu]
  · simp [hu, hg]
  · simp [hu, hg]

theorem claim3_witness :
    ((updateGravity { sampleState with useGravity := false }).1.body.map BtBody.gravity =
        some Vec3.zero ∧
      (updateGravity { sampleState with useGravity := false }).1.body.map
        BtBody.disableWorldGravity = some true) ∧
    ((updateGravity sampleState).1.body.map BtBody.gravity = some sampleWorld.gravity ∧
      (updateGravity sampleState).1.body.map BtBody.disableWorldGravity = some false) ∧
    ((updateGravity { sampleState with gravityOverride := ⟨0, -20, 0⟩ }).1.body.map
        BtBody.gravity = some (⟨0, -20, 0⟩ : Vec3) ∧
      (updateGravity { sampleState with gravityOverride := ⟨0, -20, 0⟩ }).1.body.map
        BtBody.disableWorldGravity = some true) :=
  ⟨(claim3_gravity_resolution { sampleState with useGravity := false }
      sampleBody sampleWorld rfl rfl).1 rfl,
   (claim3_gravity_resolution sampleState sampleBody sampleWorld rfl rfl).2.1 rfl rfl,
   (claim3_gravity_resolution { sampleState with gravityOverride := ⟨0, -20, 0⟩ }
      sampleBody sampleWorld rfl rfl).2.2 rfl (by decide)⟩

/-- Claim C4: a full rebuild with a reachable world: when the entity is
enabled the pre-existing in-world body is removed from the world first (the
removal event leads the trace), the body is inserted with the entity's
collision layer and mask and marked in-world, a massive body is woken, and a
massless body's linear and angular velocities are forced to exactly zero;
when the entity is not enabled the body is constructed and configured but
not inserted into the world. -/
theorem claim4_full_rebuild (s : RigidBodyState) (w : PhysicsWorldState)
    (hw : s.physicsWorld = some w) (hbw : s.inWorld = true → s.body.isSome = true)
    (hwe : s.worldEntry.isSome = true → s.inWorld = true) :
    (s.enabled = true →
      (addBodyToWorld s).1.inWorld = true ∧
      (addBodyToWorld s).1.worldEntry = some (s.collisionLayer, s.collisionMask) ∧
      (addBodyToWorld s).1.body.isSome = true ∧
      (s.body.isSome = true → s.inWorld = true →
        (addBodyToWorld s).2.head? = some PhysEvent.removeFromWorld) ∧
      PhysEvent.addToWorld s.collisionLayer s.collisionMask ∈ (addBodyToWorld s).2 ∧
      (0 < s.mass → (addBodyToWorld s).1.body.map BtBody.activated = some true) ∧
      (s.mass = 0 →
        (addBodyToWorld s).1.body.map BtBody.linearVelocity = some 0 ∧
        (addBodyToWorld s).1.body.map BtBody.angularVelocity = some 0)) ∧
    (s.enabled = false →
      (addBodyToWorld s).1.body.isSome = true ∧
      (addBodyToWorld s).1.inWorld = false ∧
      (addBodyToWorld s).1.worldEntry = none) := by
  have heq := addBodyToWorld_stages s w hw
  obtain ⟨hb1, hm1, -, -, -, he1, hl1, hk1, -, -, -, -⟩ := prepareBody_facts s
  obtain ⟨b1, hb1e⟩ := Option.isSome_iff_exists.mp hb1
  obtain ⟨-, -, -, hm2, hi2, hwe2, he2, hl2, hk2, -, -, -, -, -, hlv2, -, -⟩ :=
    updateMass_facts (prepareBody s).1 b1 hb1e
  obtain ⟨-, -, -, hi3, hwe3, he3, hm3, hl3, hk3, -, hbs3, hlv3, -, -, -⟩ :=
    updateGravity_frame (updateMass (prepareBody s).1).1
  obtain ⟨-, -, -, hi4, hwe4, he4, hm4, hl4, hk4, -, hbs4, hlv4, -, -⟩ :=
    setCollisionFlagsStep_frame (updateGravity (updateMass (prepareBody s).1).1).1
  set s4 := setCollisionFlagsStep (updateGravity (updateMass (prepareBody s).1).1).1
    with hs4
  have hlv : s4.body.map BtBody.linearVelocity = some b1.linearVelocity := by
    rw [hlv4, hlv3, hlv2]
  have hm4e : s4.mass = max s.mass 0 := by rw [hm4, hm3, hm2, hm1]
  have he4e : s4.enabled = s.enabled := by rw [he4, he3, he2, he1]
  have hl4e : s4.collisionLayer = s.collisionLayer := by rw [hl4, hl3, hl2, hl1]
  have hk4e : s4.collisionMask = s.collisionMask := by rw [hk4, hk3, hk2, hk1]
  rcases hx : s4.body with _ | b4
  · rw [hx] at hlv; simp at hlv
  have hrm : s.body.isSome = true → s.inWorld = true →
      (prepareBody s).2 = [PhysEvent.removeFromWorld] := by
    intro hbse hiw
    obtain ⟨b0, hb0⟩ := Option.isSome_iff_exists.mp hbse
    rw [prepareBody_some s b0 hb0, removeBodyFromWorld_spec]
    simp [hw, hb0, hiw]
  constructor
  · intro hen
    have he4t : s4.enabled = true := by rw [he4e, hen]
    by_cases hm : 0 < s.mass
    · have hm4t : 0 < s4.mass := by rw [hm4e]; exact lt_max_iff.mpr (Or.inl hm)
      have hins := insertIntoWorld_enabled_massive s4 b4 he4t hm4t hx
      refine ⟨?_, ?_, ?_, ?_, ?_, ?_, ?_⟩
      · rw [heq, hins]
      · rw [heq, hins]
        show some (s4.collisionLayer, s4.collisionMask) = _
        rw [hl4e, hk4e]
      · rw [heq, hins]; rfl
      · intro hbse hiw
        rw [heq, hrm hbse hiw]
        rfl
      · rw [heq, hins, hl4e, hk4e]
        simp
      · intro _
        rw [heq, hins]
        rfl
      · intro h0
        exact absurd (h0 ▸ hm) (lt_irrefl 0)
    · have hm4f : ¬ 0 < s4.mass := by
        rw [hm4e, max_eq_right (not_lt.mp hm)]
        exact lt_irrefl 0
      have hins := insertIntoWorld_enabled_massless s4 b4 he4t hm4f hx
      refine ⟨?_, ?_, ?_, ?_, ?_, ?_, ?_⟩
      · rw [heq, hins]
      · rw [heq, hins]
        show some (s4.collisionLayer, s4.collisionMask) = _
        rw [hl4e, hk4e]
      · rw [heq, hins]; rfl
      · intro hbse hiw
        rw [heq, hrm hbse hiw]
        rfl
      · rw [heq, hins, hl4e, hk4e]
        simp
      · intro hmt
        exact absurd hmt hm
      · intro _
        rw [heq, hins]
        exact ⟨rfl, rfl⟩
  · intro hen
    have he4f : s4.enabled = false := by rw [he4e, hen]
    have hins := insertIntoWorld_disabled s4 he4f
    have hi1f : (prepareBody s).1.inWorld = false := by
      cases hbs : s.body with
      | none =>
        have hiw : s.inWorld = false := by
          cases hiw2 : s.inWorld
          · rfl
          · have := hbw hiw2
            rw [hbs] at this
            simp at this
        obtain ⟨-, hi1, -⟩ := prepareBody_none_facts s hbs
        rw [hi1, hiw]
      | some b0 =>
        rw [prepareBody_some s b0 hbs, removeBodyFromWorld_spec]
        cases hiw2 : s.inWorld
        · simp [hw, hbs, hiw2]
        · simp [hw, hbs, hiw2]
    have hwe1f : (prepareBody s).1.worldEntry = none := by
      have hwenone : s.inWorld = false → s.worldEntry = none := by
        intro hiw
        cases hwe2 : s.worldEntry
        · rfl
        · have := hwe (by rw [hwe2]; rfl)
          rw [hiw] at this
          simp at this
      cases hbs : s.body with
      | none =>
        have hiw : s.inWorld = false := by
          cases hiw2 : s.inWorld
          · rfl
          · have := hbw hiw2
            rw [hbs] at this
            simp at this
        obtain ⟨-, -, hwe1⟩ := prepareBody_none_facts s hbs
        rw [hwe1, hwenone hiw]
      | some b0 =>
        rw [prepareBody_some s b0 hbs, removeBodyFromWorld_spec]
        cases hiw2 : s.inWorld
        · simp [hw, hbs, hiw2, hwenone hiw2]
        · simp [hw, hbs, hiw2]
    refine ⟨?_, ?_, ?_⟩
    · rw [heq, hins]
      show s4.body.isSome = true
      rw [hx]
      rfl
    · rw [heq, hins]
      show s4.inWorld = false
      rw [hi4, hi3, hi2, hi1f]
    · rw [heq, hins]
      show s4.worldEntry = none
      rw [hwe4, hwe3, hwe2, hwe1f]

theorem claim4_witness :
    sampleState.physicsWorld = some sampleWorld ∧
    ((sampleState.enabled = true →
      (addBodyToWorld sampleState).1.inWorld = true ∧
      (addBodyToWorld sampleState).1.worldEntry =
        some (sampleState.collisionLayer, sampleState.collisionMask) ∧
      (addBodyToWorld sampleState).1.body.isSome = true ∧
      (sampleState.body.isSome = true → sampleState.inWorld = true →
        (addBodyToWorld sampleState).2.head? = some PhysEvent.removeFromWorld) ∧
      PhysEvent.addToWorld sampleState.collisionLayer sampleState.collisionMask ∈
        (addBodyToWorld sampleState).2 ∧
      (0 < sampleState.mass →
        (addBodyToWorld sampleState).1.body.map BtBody.activated = some true) ∧
      (sampleState.mass = 0 →
        (addBodyToWorld sampleState).1.body.map BtBody.linearVelocity = some 0 ∧
        (addBodyToWorld sampleState).1.body.map BtBody.angularVelocity = some 0)) ∧
    (sampleState.enabled = false →
      (addBodyToWorld sampleState).1.body.isSome = true ∧
      (addBodyToWorld sampleState).1.inWorld = false ∧
      (addBodyToWorld sampleState).1.worldEntry = none)) :=
  ⟨rfl, claim4_full_rebuild sampleState sampleWorld rfl (fun _ => rfl)
    (fun _ => rfl)⟩

/-- Claim C5: with an existing body, each force/impulse/torque application
is a complete no-op on zero input (state unchanged, no solver call), and on
nonzero input first wakes the body (via `Activate`, which does nothing when
the mass is not positive) and then issues the solver call; a massless body
is never woken. -/
theorem claim5_activation_policy (s : RigidBodyState) (b : BtBody) (hb : s.body = some b)
    (v p : Vec3) :
    (activate s = if 0 < s.mass
        then ({ s with body := some { b with activated := true } }, [PhysEvent.activate])
        else (s, [])) ∧
    (s.mass = 0 → activate s = (s, [])) ∧
    (applyForce s v = if v = Vec3.zero then (s, [])
        else ((activate s).1, (activate s).2 ++ [PhysEvent.applyCentralForce v])) ∧
    (applyForceAt s v p = if v = Vec3.zero then (s, [])
        else ((activate s).1,
          (activate s).2 ++ [PhysEvent.applyForceAt v (p - s.centerOfMass)])) ∧
    (applyTorque s v = if v = Vec3.zero then (s, [])
        else ((activate s).1, (activate s).2 ++ [PhysEvent.applyTorque v])) ∧
    (applyImpulse s v = if v = Vec3.zero then (s, [])
        else ((activate s).1, (activate s).2 ++ [PhysEvent.applyCentralImpulse v])) ∧
    (applyImpulseAt s v p = if v = Vec3.zero then (s, [])
        else ((activate s).1,
          (activate s).2 ++ [PhysEvent.applyImpulseAt v (p - s.centerOfMass)])) ∧
    (applyTorqueImpulse s v = if v = Vec3.zero then (s, [])
        else ((activate s).1, (activate s).2 ++ [PhysEvent.applyTorqueImpulse v])) := by
  refine ⟨activate_some s b hb, fun h0 => ?_, ?_, ?_, ?_, ?_, ?_, ?_⟩
  · rw [activate_some s b hb, if_neg]
    simp [h0]
  · unfold applyForce; rw [hb]
  · unfold applyForceAt; rw [hb]
  · unfold applyTorque; rw [hb]
  · unfold applyImpulse; rw [hb]
  · unfold applyImpulseAt; rw [hb]
  · unfold applyTorqueImpulse; rw [hb]

theorem claim5_witness :
    sampleState.body = some sampleBody ∧
    (applyForce sampleState ⟨1, 0, 0⟩ = if (⟨1, 0, 0⟩ : Vec3) = Vec3.zero
        then (sampleState, [])
        else ((activate sampleState).1,
          (activate sampleState).2 ++ [PhysEvent.applyCentralForce ⟨1, 0, 0⟩])) ∧
    (masslessState.mass = 0 → activate masslessState = (masslessState, [])) :=
  ⟨rfl,
   (claim5_activation_policy sampleState sampleBody rfl ⟨1, 0, 0⟩ 0).2.2.1,
   (claim5_activation_policy masslessState { sampleBody with activated := false }
      rfl ⟨1, 0, 0⟩ 0).2.1⟩

/-- Claim C2: after every mass-property recomputation on an existing body
the shifted compound shape mirrors the source compound shape (same child
count, same child shapes in order, translations offset by the computed
center of mass), and no modelled operation ever edits the shifted aggregate
except through this rebuild: every operation either leaves it unchanged or
leaves it in the mirrored state. -/
theorem claim2_shifted_mirror (s : RigidBodyState) (b : BtBody) (hb : s.body = some b)
    (op : Op) :
    shiftedMirror (updateMass s).1 ∧
    ((applyOp op s).1.shiftedCompoundShape = s.shiftedCompoundShape ∨
      shiftedMirror (applyOp op s).1) := by
  have hmain : shiftedMirror (updateMass s).1 := by
    obtain ⟨hsh, hcom, hc, -⟩ := updateMass_facts s b hb
    exact shiftedMirror_of_eq _ (by rw [hsh, hcom, hc])
  refine ⟨hmain, ?_⟩
  cases op <;> simp only [applyOp]
  case setMass m =>
    simp only [setMass]
    split
    · exact addBodyToWorld_shifted _
    · left; rfl
  case setPosition p =>
    left
    unfold setPosition activate
    rw [hb]
    dsimp only
    split <;> rfl
  case setRotation q =>
    left
    unfold setRotation activate
    rw [hb]
    dsimp only
    repeat' split
    all_goals rfl
  case setTransform p q =>
    left
    unfold setTransform activate
    rw [hb]
    dsimp only
    split <;> rfl
  case setLinearVelocity v =>
    left
    rw [setLinearVelocity_some s b v hb]
    repeat' split
    all_goals rfl
  case setAngularVelocity v =>
    left
    rw [setAngularVelocity_some s b v hb]
    repeat' split
    all_goals rfl
  case setLinearFactor v =>
    left; unfold setLinearFactor; rw [hb]
  case setAngularFactor v =>
    left; unfold setAngularFactor; rw [hb]
  case setLinearRestThreshold r =>
    left; unfold setLinearRestThreshold; rw [hb]
  case setAngularRestThreshold r =>
    left; unfold setAngularRestThreshold; rw [hb]
  case setLinearDamping d =>
    left; unfold setLinearDamping; rw [hb]
  case setAngularDamping d =>
    left; unfold setAngularDamping; rw [hb]
  case setFriction f =>
    left; unfold setFriction; rw [hb]
  case setRollingFriction f =>
    left; unfold setRollingFriction; rw [hb]
  case setRestitution r =>
    left; unfold setRestitution; rw [hb]
  case setContactProcessingThreshold t =>
    left; unfold setContactProcessingThreshold; rw [hb]
  case setCcdRadius r =>
    left; unfold setCcdRadius; rw [hb]
  case setCcdMotionThreshold t =>
    left; unfold setCcdMotionThreshold; rw [hb]
  case setUseGravity e =>
    simp only [setUseGravity]
    split
    · left; rfl
    · left; exact (updateGravity_frame _).1
  case setGravityOverride g =>
    simp only [setGravityOverride]
    split
    · left; rfl
    · left; exact (updateGravity_frame _).1
  case setKinematic e =>
    simp only [setKinematic]
    split
    · left; rfl
    · exact addBodyToWorld_shifted _
  case setPhantom e =>
    simp only [setPhantom]
    split
    · left; rfl
    · exact addBodyToWorld_shifted _
  case setCollisionLayer l =>
    simp only [setCollisionLayer]
    split
    · left; rfl
    · exact addBodyToWorld_shifted _
  case setCollisionMask m =>
    simp only [setCollisionMask]
    split
    · left; rfl
    · exact addBodyToWorld_shifted _
  case setCollisionLayerAndMask l m =>
    simp only [setCollisionLayerAndMask]
    split
    · left; rfl
    · exact addBodyToWorld_shifted _
  case setCollisionEventMode m =>
    left; rfl
  case applyForce f =>
    left
    unfold applyForce
    rw [hb]
    dsimp only
    split
    · rfl
    · show (activate s).1.shiftedCompoundShape = _
      rw [activate_some s b hb]
      split <;> rfl
  case applyForceAt f p =>
    left
    unfold applyForceAt
    rw [hb]
    dsimp only
    split
    · rfl
    · show (activate s).1.shiftedCompoundShape = _
      rw [activate_some s b hb]
      split <;> rfl
  case applyTorque t =>
    left
    unfold applyTorque
    rw [hb]
    dsimp only
    split
    · rfl
    · show (activate s).1.shiftedCompoundShape = _
      rw [activate_some s b hb]
      split <;> rfl
  case applyImpulse i =>
    left
    unfold applyImpulse
    rw [hb]
    dsimp only
    split
    · rfl
    · show (activate s).1.shiftedCompoundShape = _
      rw [activate_some s b hb]
      split <;> rfl
  case applyImpulseAt i p =>
    left
    unfold applyImpulseAt
    rw [hb]
    dsimp only
    split
    · rfl
    · show (activate s).1.shiftedCompoundShape = _
      rw [activate_some s b hb]
      split <;> rfl
  case applyTorqueImpulse t =>
    left
    unfold applyTorqueImpulse
    rw [hb]
    dsimp only
    split
    · rfl
    · show (activate s).1.shiftedCompoundShape = _
      rw [activate_some s b hb]
      split <;> rfl
  case resetForces =>
    left; unfold resetForces; rw [hb]
  case activate =>
    left
    rw [activate_some s b hb]
    split <;> rfl
  case reAddBodyToWorld =>
    simp only [reAddBodyToWorld]
    split
    · exact addBodyToWorld_shifted _
    · left; rfl
  case addConstraint c =>
    left; rfl
  case removeConstraint c =>
    left
    show (removeConstraint s c).1.shiftedCompoundShape = _
    unfold removeConstraint
    rw [activate_some { s with constraints := s.constraints.erase c } b hb]
    split <;> rfl
  case removeBodyFromWorld =>
    left
    rw [removeBodyFromWorld_spec]
    split <;> rfl
  case addBodyToWorld =>
    exact addBodyToWorld_shifted s
  case updateMass =>
    right; exact hmain
  case updateGravity =>
    left; exact (updateGravity_frame s).1
  case setWorldTransform t =>
    left
    unfold setWorldTransform applyWorldTransform
    cases hn : s.node
    · rfl
    · rename_i n
      by_cases hp : n.parentRigidBody <;>
        by_cases hsm : s.hasSmoothedTransform && s.smoothedAvailable <;>
          simp [hn, hp, hsm]
  case getWorldTransform =>
    left
    unfold getWorldTransform
    cases hn : s.node <;> simp [hn]
  case onSetEnabled e =>
    simp only [onSetEnabled]
    split
    · exact addBodyToWorld_shifted _
    · split
      · left
        rw [removeBodyFromWorld_spec]
        split <;> rfl
      · left; rfl

theorem claim2_witness :
    sampleState.body = some sampleBody ∧
    (shiftedMirror (updateMass sampleState).1 ∧
      ((applyOp (Op.setFriction 1) sampleState).1.shiftedCompoundShape =
          sampleState.shiftedCompoundShape ∨
        shiftedMirror (applyOp (Op.setFriction 1) sampleState).1)) :=
  ⟨rfl, claim2_shifted_mirror sampleState sampleBody rfl (Op.setFriction 1)⟩

/-- Claim C6: after mass recomputation on an existing body, the exposed
collision shape is the single child shape (not the compound wrapper) iff
exactly one child shape is present and its shifted local transform is the
identity; in every other case the compound wrapper is exposed. -/
theorem claim6_shape_collapse (s : RigidBodyState) (b : BtBody) (hb : s.body = some b) :
    (((updateMass s).1.body.map BtBody.collisionShape =
        s.compoundShape.head?.map fun c => ShapeRef.child c.shape) ↔
      (s.compoundShape.length = 1 ∧
        (updateMass s).1.shiftedCompoundShape.head?.map CompoundChild.transform =
          some ⟨Vec3.zero, Quat.identity⟩)) ∧
    (¬ (s.compoundShape.length = 1 ∧
        (updateMass s).1.shiftedCompoundShape.head?.map CompoundChild.transform =
          some ⟨Vec3.zero, Quat.identity⟩) →
      (updateMass s).1.body.map BtBody.collisionShape = some ShapeRef.compound) := by
  obtain ⟨hsh, -⟩ := updateMass_facts s b hb
  rw [updateMass_collisionShape s b hb, hsh]
  cases hc : s.compoundShape with
  | nil => simp [shiftChildren]
  | cons c rest =>
    cases rest with
    | nil =>
      by_cases ho : c.transform.origin - principalOf [c] = Vec3.zero <;>
        by_cases hr : c.transform.rotation = Quat.identity <;>
        simp [shiftChildren, ho, hr]
    | cons c2 rest2 => simp [shiftChildren]

theorem claim6_witness :
    sampleState.body = some sampleBody ∧
    ((((updateMass sampleState).1.body.map BtBody.collisionShape =
        sampleState.compoundShape.head?.map fun c => ShapeRef.child c.shape) ↔
      (sampleState.compoundShape.length = 1 ∧
        (updateMass sampleState).1.shiftedCompoundShape.head?.map CompoundChild.transform =
          some ⟨Vec3.zero, Quat.identity⟩)) ∧
    (¬ (sampleState.compoundShape.length = 1 ∧
        (updateMass sampleState).1.shiftedCompoundShape.head?.map CompoundChild.transform =
          some ⟨Vec3.zero, Quat.identity⟩) →
      (updateMass sampleState).1.body.map BtBody.collisionShape =
        some ShapeRef.compound)) :=
  ⟨rfl, claim6_shape_collapse sampleState sampleBody rfl⟩

/-- Claim C7 counterexample: changing the collision layer of a live in-world
sleeping dynamic body does not preserve its sleep state: the triggered
rebuild wakes it (`UpdateMass` reapplies the position through `SetPosition`,
and `AddBodyToWorld` calls `Activate` for a massive body). -/
theorem claim7_counterexample :
    sleepingState.inWorld = true ∧
    0 < sleepingState.mass ∧
    isActive sleepingState = false ∧
    isActive (setCollisionLayer sleepingState 2).1 = true := by decide

/-- Claim C7 (amended): changing the collision layer and/or mask of a live
in-world enabled body preserves linear and angular velocity when the mass is
positive, but the rebuild re-activates such a body rather than preserving
its sleep state; a massless body's velocities are forced to zero and its
activation state is preserved. -/
theorem claim7_layer_mask_rebuild (s : RigidBodyState) (b : BtBody)
    (w : PhysicsWorldState) (hb : s.body = some b) (hw : s.physicsWorld = some w)
    (he : s.enabled = true) (l m : ℕ) :
    (l ≠ s.collisionLayer →
      (0 < s.mass →
        (setCollisionLayer s l).1.body.map BtBody.linearVelocity =
          some b.linearVelocity ∧
        (setCollisionLayer s l).1.body.map BtBody.angularVelocity =
          some b.angularVelocity ∧
        (setCollisionLayer s l).1.body.map BtBody.activated = some true) ∧
      (¬ 0 < s.mass →
        (setCollisionLayer s l).1.body.map BtBody.linearVelocity = some 0 ∧
        (setCollisionLayer s l).1.body.map BtBody.angularVelocity = some 0 ∧
        (setCollisionLayer s l).1.body.map BtBody.activated = some b.activated)) ∧
    (m ≠ s.collisionMask →
      (0 < s.mass →
        (setCollisionMask s m).1.body.map BtBody.linearVelocity =
          some b.linearVelocity ∧
        (setCollisionMask s m).1.body.map BtBody.angularVelocity =
          some b.angularVelocity ∧
        (setCollisionMask s m).1.body.map BtBody.activated = some true) ∧
      (¬ 0 < s.mass →
        (setCollisionMask s m).1.body.map BtBody.linearVelocity = some 0 ∧
        (setCollisionMask s m).1.body.map BtBody.angularVelocity = some 0 ∧
        (setCollisionMask s m).1.body.map BtBody.activated = some b.activated)) ∧
    ((l ≠ s.collisionLayer ∨ m ≠ s.collisionMask) →
      (0 < s.mass →
        (setCollisionLayerAndMask s l m).1.body.map BtBody.linearVelocity =
          some b.linearVelocity ∧
        (setCollisionLayerAndMask s l m).1.body.map BtBody.angularVelocity =
          some b.angularVelocity ∧
        (setCollisionLayerAndMask s l m).1.body.map BtBody.activated = some true) ∧
      (¬ 0 < s.mass →
        (setCollisionLayerAndMask s l m).1.body.map BtBody.linearVelocity = some 0 ∧
        (setCollisionLayerAndMask s l m).1.body.map BtBody.angularVelocity = some 0 ∧
        (setCollisionLayerAndMask s l m).1.body.map BtBody.activated =
          some b.activated)) := by
  refine ⟨fun hne => ?_, fun hne => ?_, fun hne => ?_⟩
  · simp only [setCollisionLayer]
    rw [if_neg hne]
    exact addBodyToWorld_motion { s with collisionLayer := l } b w hb hw he
  · simp only [setCollisionMask]
    rw [if_neg hne]
    exact addBodyToWorld_motion { s with collisionMask := m } b w hb hw he
  · simp only [setCollisionLayerAndMask]
    have hcond : ¬ (l = s.collisionLayer ∧ m = s.collisionMask) := by
      rintro ⟨h1, h2⟩
      rcases hne with h | h
      · exact h h1
      · exact h h2
    rw [if_neg hcond]
    exact addBodyToWorld_motion { s with collisionLayer := l, collisionMask := m }
      b w hb hw he

theorem claim7_witness :
    (0 < sampleState.mass →
      (setCollisionLayer sampleState 2).1.body.map BtBody.linearVelocity =
        some sampleBody.linearVelocity ∧
      (setCollisionLayer sampleState 2).1.body.map BtBody.angularVelocity =
        some sampleBody.angularVelocity ∧
      (setCollisionLayer sampleState 2).1.body.map BtBody.activated = some true) ∧
    (¬ 0 < sampleState.mass →
      (setCollisionLayer sampleState 2).1.body.map BtBody.linearVelocity = some 0 ∧
      (setCollisionLayer sampleState 2).1.body.map BtBody.angularVelocity = some 0 ∧
      (setCollisionLayer sampleState 2).1.body.map BtBody.activated =
        some sampleBody.activated) :=
  (claim7_layer_mask_rebuild sampleState sampleBody sampleWorld rfl rfl rfl 2 5).1
    (by decide)

/-- Claim C8 counterexample: on a massless body with an existing simulated
body, `RemoveConstraint` removes the constraint but does not wake the body
(`Activate` is guarded by `mass_ > 0.0f`), so removal does not always wake
the body. -/
theorem claim8_counterexample :
    masslessState.body.isSome = true ∧
    isActive masslessState = false ∧
    (removeConstraint masslessState 5).1.constraints = [] ∧
    isActive (removeConstraint masslessState 5).1 = false := by decide

/-- Claim C8 (amended): with an existing body, `RemoveConstraint` removes
the constraint from the list and wakes the body exactly when the stored mass
is positive; a massless body is not woken. -/
theorem claim8_remove_constraint (s : RigidBodyState) (b : BtBody)
    (hb : s.body = some b) (c : ℕ) :
    removeConstraint s c =
      if 0 < s.mass then
        ({ s with constraints := s.constraints.erase c,
                  body := some { b with activated := true } },
         [PhysEvent.activate])
      else ({ s with constraints := s.constraints.erase c }, []) := by
  unfold removeConstraint
  rw [activate_some { s with constraints := s.constraints.erase c } b hb]

theorem claim8_witness :
    sampleState.body = some sampleBody ∧
    (removeConstraint sampleState 5 =
      if 0 < sampleState.mass then
        ({ sampleState with constraints := sampleState.constraints.erase 5,
                            body := some { sampleBody with activated := true } },
         [PhysEvent.activate])
      else ({ sampleState with constraints := sampleState.constraints.erase 5 }, [])) :=
  ⟨rfl, claim8_remove_constraint sampleState sampleBody rfl 5⟩

/-- Claim C9: `SetMass` stores `max(v, 0)`; `SetCcdRadius` and
`SetCcdMotionThreshold` apply `max(v, 0)` to an existing body; and the full
rebuild clamps any negative stored mass to zero. -/
theorem claim9_parameter_clamping (s : RigidBodyState) (v : ℚ) :
    ((setMass s v).1.mass = max v 0) ∧
    (∀ b, s.body = some b →
      (setCcdRadius s v).1.body = some { b with ccdRadius := max v 0 } ∧
      (setCcdMotionThreshold s v).1.body =
        some { b with ccdMotionThreshold := max v 0 }) ∧
    (∀ w, s.physicsWorld = some w → (addBodyToWorld s).1.mass = max s.mass 0) := by
  refine ⟨?_, fun b hb => ?_, fun w hw => addBodyToWorld_mass s w hw⟩
  · simp only [setMass]
    split
    · cases hw : s.physicsWorld
      · rw [addBodyToWorld_worldNone _ rfl]
      · rw [addBodyToWorld_mass _ _ rfl]
        show max (max v 0) 0 = max v 0
        rw [max_assoc, max_self]
    · next h =>
      have h2 : max v 0 = s.mass := not_ne_iff.mp h
      exact h2.symm
  · constructor
    · unfold setCcdRadius; rw [hb]
    · unfold setCcdMotionThreshold; rw [hb]

theorem claim9_witness :
    ((setMass sampleState (-5)).1.mass = max (-5) 0) ∧
    ((setCcdRadius sampleState (-2)).1.body =
      some { sampleBody with ccdRadius := max (-2) 0 }) ∧
    ((setCcdMotionThreshold sampleState (-3)).1.body =
      some { sampleBody with ccdMotionThreshold := max (-3) 0 }) ∧
    ((addBodyToWorld { sampleState with mass := -4 }).1.mass =
      max ({ sampleState with mass := -4 } : RigidBodyState).mass 0) :=
  ⟨(claim9_parameter_clamping sampleState (-5)).1,
   ((claim9_parameter_clamping sampleState (-2)).2.1 sampleBody rfl).1,
   ((claim9_parameter_clamping sampleState (-3)).2.1 sampleBody rfl).2,
   (claim9_parameter_clamping { sampleState with mass := -4 } 0).2.2 sampleWorld rfl⟩

/-- Claim C10: when no simulated body exists, every query accessor returns
its fixed safe default (zero vectors and scalars, identity rotation,
inactive), and the body-targeting mutators are silent no-ops. -/
theorem claim10_null_body_defaults (s : RigidBodyState) (hb : s.body = none)
    (p v : Vec3) (q : Quat) (f : ℚ) :
    getPosition s = 0 ∧ getRotation s = Quat.identity ∧
    getLinearVelocity s = 0 ∧ getAngularVelocity s = 0 ∧
    getLinearFactor s = 0 ∧ getAngularFactor s = 0 ∧
    getVelocityAtPoint s p = 0 ∧
    getFriction s = 0 ∧ getRollingFriction s = 0 ∧ getRestitution s = 0 ∧
    getLinearDamping s = 0 ∧ getAngularDamping s = 0 ∧
    getLinearRestThreshold s = 0 ∧ getAngularRestThreshold s = 0 ∧
    getCcdRadius s = 0 ∧ getCcdMotionThreshold s = 0 ∧
    getContactProcessingThreshold s = 0 ∧ isActive s = false ∧
    setPosition s p = (s, []) ∧ setRotation s q = (s, []) ∧
    setTransform s p q = (s, []) ∧
    setLinearVelocity s v = (s, []) ∧ setAngularVelocity s v = (s, []) ∧
    setLinearDamping s f = (s, []) ∧ setAngularDamping s f = (s, []) ∧
    setFriction s f = (s, []) ∧
    applyForce s v = (s, []) ∧ applyForceAt s v p = (s, []) ∧
    applyTorque s v = (s, []) ∧ applyImpulse s v = (s, []) ∧
    applyImpulseAt s v p = (s, []) ∧ applyTorqueImpulse s v = (s, []) := by
  refine ⟨?_, ?_, ?_, ?_, ?_, ?_, ?_, ?_, ?_, ?_, ?_, ?_, ?_, ?_, ?_, ?_, ?_, ?_,
    ?_, ?_, ?_, ?_, ?_, ?_, ?_, ?_, ?_, ?_, ?_, ?_, ?_, ?_⟩
  · unfold getPosition; rw [hb]
  · unfold getRotation; rw [hb]
  · unfold getLinearVelocity; rw [hb]
  · unfold getAngularVelocity; rw [hb]
  · unfold getLinearFactor; rw [hb]
  · unfold getAngularFactor; rw [hb]
  · unfold getVelocityAtPoint; rw [hb]
  · unfold getFriction; rw [hb]
  · unfold getRollingFriction; rw [hb]
  · unfold getRestitution; rw [hb]
  · unfold getLinearDamping; rw [hb]
  · unfold getAngularDamping; rw [hb]
  · unfold getLinearRestThreshold; rw [hb]
  · unfold getAngularRestThreshold; rw [hb]
  · unfold getCcdRadius; rw [hb]
  · unfold getCcdMotionThreshold; rw [hb]
  · unfold getContactProcessingThreshold; rw [hb]
  · unfold isActive; rw [hb]
  · unfold setPosition; rw [hb]
  · unfold setRotation; rw [hb]
  · unfold setTransform; rw [hb]
  · exact setLinearVelocity_none s v hb
  · exact setAngularVelocity_none s v hb
  · unfold setLinearDamping; rw [hb]
  · unfold setAngularDamping; rw [hb]
  · unfold setFriction; rw [hb]
  · unfold applyForce; rw [hb]
  · unfold applyForceAt; rw [hb]
  · unfold applyTorque; rw [hb]
  · unfold applyImpulse; rw [hb]
  · unfold applyImpulseAt; rw [hb]
  · unfold applyTorqueImpulse; rw [hb]

theorem claim10_witness :
    noBodyState.body = none ∧
    getPosition noBodyState = 0 ∧ getRotation noBodyState = Quat.identity ∧
    isActive noBodyState = false ∧
    setLinearVelocity noBodyState ⟨1, 2, 3⟩ = (noBodyState, []) ∧
    applyImpulse noBodyState ⟨1, 2, 3⟩ = (noBodyState, []) :=
  ⟨rfl,
   (claim10_null_body_defaults noBodyState rfl 0 ⟨1, 2, 3⟩ Quat.identity 0).1,
   (claim10_null_body_defaults noBodyState rfl 0 ⟨1, 2, 3⟩ Quat.identity 0).2.1,
   (claim10_null_body_defaults noBodyState rfl 0 ⟨1, 2, 3⟩ Quat.identity 0).2.2.2.2.2.2.2.2.2.2.2.2.2.2.2.2.2.1,
   (claim10_null_body_defaults noBodyState rfl 0 ⟨1, 2, 3⟩ Quat.identity 0).2.2.2.2.2.2.2.2.2.2.2.2.2.2.2.2.2.2.2.2.2.1,
   (claim10_null_body_defaults noBodyState rfl 0 ⟨1, 2, 3⟩ Quat.identity 0).2.2.2.2.2.2.2.2.2.2.2.2.2.2.2.2.2.2.2.2.2.2.2.2.2.2.2.2.2.1⟩

end UrhoRigidBody
